import Mathlib

set_option maxHeartbeats 1000000

/-! Shallow embedding of the AI-analysis pipeline of the jeeva.ai backend
(`ai_analysis/medical_report_scanner.py` and `ai_analysis/ai_services.py`).
Python values flowing through the pipeline (the results of `json.loads`) are
modelled by the inductive type `Py`; Python exceptions are modelled with
`Except String`; the external generative-AI service is modelled by oracle
functions supplied as parameters. -/

/-- Model of a Python value as manipulated by the pipeline: `None`, `bool`,
`int`, `float` (carried exactly as a rational), `str`, `list`, and `dict`
(an insertion-ordered association list with unique keys). -/
inductive Py where
  | pnone : Py
  | pbool : Bool → Py
  | pint : Int → Py
  | pfloat : ℚ → Py
  | pstr : String → Py
  | plist : List Py → Py
  | pdict : List (String × Py) → Py

open Py

/-- Python `\s` (whitespace class) restricted to ASCII, which is all the
pipeline's inputs contain. -/
def isPySpace (c : Char) : Bool :=
  c == ' ' || c == '\t' || c == '\n' || c == '\x0d' || c == '\x0b' || c == '\x0c'

/-- The character class `[A-Za-z]`. -/
def isAsciiLetter (c : Char) : Bool :=
  ('A' ≤ c && c ≤ 'Z') || ('a' ≤ c && c ≤ 'z')

/-- The character class `[A-Za-z\s]` of the fallback test-name pattern. -/
def isNameChar (c : Char) : Bool :=
  isAsciiLetter c || isPySpace c

/-- The character class `[0-9.]` (also `[\d.]` in ASCII). -/
def isDigitDot (c : Char) : Bool :=
  c.isDigit || c == '.'

/-- The character class `[A-Za-z/%]` of the fallback unit pattern. -/
def isUnitChar (c : Char) : Bool :=
  isAsciiLetter c || c == '/' || c == '%'

/-- The character class `[0-9.-]` of the fallback reference-range pattern. -/
def isRangeChar (c : Char) : Bool :=
  c.isDigit || c == '.' || c == '-'

/-- Worker of `replAll`: a positive `skip` count drops characters still
belonging to an already-replaced occurrence. -/
def replAllAux (p r : List Char) : Nat → List Char → List Char
  | _ + 1, [] => []
  | skip + 1, _ :: s => replAllAux p r skip s
  | 0, [] => []
  | 0, c :: s =>
    if p.isPrefixOf (c :: s) then r ++ replAllAux p r (p.length - 1) s
    else c :: replAllAux p r 0 s

/-- Python `str.replace` for a nonempty needle: replaces every occurrence,
scanning left to right without overlap. -/
def replAll (p r s : List Char) : List Char :=
  if p.isEmpty then s else replAllAux p r 0 s

/-- Worker of `splitOnL`: a positive `skip` count drops characters still
belonging to an already-recognized separator. -/
def splitOnLAux (sep : List Char) : Nat → List Char → List (List Char)
  | _ + 1, [] => [[]]
  | skip + 1, _ :: s => splitOnLAux sep skip s
  | 0, [] => [[]]
  | 0, c :: s =>
    if sep.isPrefixOf (c :: s) then [] :: splitOnLAux sep (sep.length - 1) s
    else
      match splitOnLAux sep 0 s with
      | t :: ts => (c :: t) :: ts
      | [] => [[c]]

/-- Python `str.split` with a nonempty separator. -/
def splitOnL (sep s : List Char) : List (List Char) :=
  if sep.isEmpty then [s] else splitOnLAux sep 0 s

/-- Strip characters satisfying `f` from both ends (Python `str.strip`). -/
def stripBy (f : Char → Bool) (s : List Char) : List Char :=
  ((s.dropWhile f).reverse.dropWhile f).reverse

/-- Python `str.strip()` (no argument: strips whitespace). -/
def pyStrip (s : String) : String :=
  ⟨stripBy isPySpace s.data⟩

/-- Python `str.strip(chars)` for an explicit character set. -/
def pyStripChars (cs : List Char) (s : String) : String :=
  ⟨stripBy (fun c => cs.contains c) s.data⟩

/-- Python `str.lstrip(chars)` for an explicit character set. -/
def pyLStripChars (cs : List Char) (s : String) : String :=
  ⟨s.data.dropWhile (fun c => cs.contains c)⟩

/-- Python `a.replace(b, c)` on strings (nonempty needle). -/
def pyReplace (s pat rep : String) : String :=
  ⟨replAll pat.data rep.data s.data⟩

/-- Python `a.split(b)` on strings (nonempty separator). -/
def pySplit (s sep : String) : List String :=
  (splitOnL sep.data s.data).map (fun l => ⟨l⟩)

/-- Does `pat` occur as a contiguous sublist? -/
def isInfixOfL (pat : List Char) : List Char → Bool
  | [] => pat.isEmpty
  | c :: s => pat.isPrefixOf (c :: s) || isInfixOfL pat s

/-- Python `b in a` substring test. -/
def containsSub (s pat : String) : Bool :=
  isInfixOfL pat.data s.data

/-- Python `a.startswith(b)`. -/
def pyStartsWith (s pat : String) : Bool :=
  pat.data.isPrefixOf s.data

/-- Python `a.endswith(b)`. -/
def pyEndsWith (s pat : String) : Bool :=
  pat.data.isSuffixOf s.data

/-- Python `str.lower` (ASCII scope). -/
def pyLower (s : String) : String :=
  ⟨s.data.map Char.toLower⟩

/-- Python `str.upper` (ASCII scope). -/
def pyUpper (s : String) : String :=
  ⟨s.data.map Char.toUpper⟩

/-- One step of Python `str.title`: uppercase a letter that follows a
non-letter, lowercase a letter that follows a letter. -/
def titleChars : Bool → List Char → List Char
  | _, [] => []
  | prevAlpha, c :: s =>
    let c' := if isAsciiLetter c then (if prevAlpha then c.toLower else c.toUpper) else c
    c' :: titleChars (isAsciiLetter c) s

/-- Python `str.title` (ASCII scope). -/
def pyTitle (s : String) : String :=
  ⟨titleChars false s.data⟩

/-- Worker of `pyDedup`, keeping the elements not seen before. -/
def pyDedupAux (seen : List String) : List String → List String
  | [] => []
  | x :: xs =>
    if seen.contains x then pyDedupAux seen xs else x :: pyDedupAux (x :: seen) xs

/-- Python `list(set(xs))` for string lists, modelled as deduplication
keeping the first occurrence of each element (the source only uses the
result as a set, so the unspecified CPython iteration order is irrelevant to
the claims). -/
def pyDedup (xs : List String) : List String :=
  pyDedupAux [] xs

/-- Number of factors `p` in `n` (used to decide whether a rational has a
finite decimal expansion). -/
def factorCount (p n : Nat) : Nat :=
  if h : p ≤ 1 ∨ n = 0 then 0
  else if n % p = 0 then 1 + factorCount p (n / p) else 0
termination_by n
decreasing_by
  push_neg at h
  exact Nat.div_lt_self (Nat.pos_of_ne_zero h.2) (by omega)

/-- Nonnegative decimal digit string of `m` with at least `k + 1` digits
(zero-padded on the left). -/
def paddedDigits (m k : Nat) : List Char :=
  let s := (toString m).data
  List.replicate (k + 1 - s.length) '0' ++ s

/-- Python `repr`/`str` of a float, for floats whose exact value is the given
rational. Python prints the shortest decimal that round-trips; for a float
that was read from a short decimal literal (the only floats these claims
touch) that is exactly the finite decimal expansion of the rational, always
with at least one digit after the point. Rationals without a finite decimal
expansion (unreachable from float-valued data) are rendered as fractions. -/
def floatRepr (q : ℚ) : String :=
  let sign := if q < 0 then "-" else ""
  let q := |q|
  let a := factorCount 2 q.den
  let b := factorCount 5 q.den
  if 2 ^ a * 5 ^ b = q.den then
    let k := max (max a b) 1
    let ds := paddedDigits (q * (10 : ℚ) ^ k).num.toNat k
    sign ++ ⟨ds.take (ds.length - k)⟩ ++ "." ++ ⟨ds.drop (ds.length - k)⟩
  else
    sign ++ toString q.num ++ "/" ++ toString q.den

/-- Python `repr` of a `Py` value (scope: the values interpolated by the
pipeline; strings are rendered with single quotes). -/
def pyRepr : Py → String
  | pnone => "None"
  | pbool b => if b then "True" else "False"
  | pint n => toString n
  | pfloat q => floatRepr q
  | pstr s => "'" ++ s ++ "'"
  | plist xs => "[" ++ ", ".intercalate (xs.attach.map (fun x => pyRepr x.1)) ++ "]"
  | pdict kvs =>
      "\x7b" ++ ", ".intercalate
        (kvs.attach.map (fun kv => "'" ++ kv.1.1 ++ "': " ++ pyRepr kv.1.2)) ++ "\x7d"
decreasing_by
  · have := List.sizeOf_lt_of_mem x.2
    simp only [Py.plist.sizeOf_spec]
    omega
  · have h1 : sizeOf kv.1 < sizeOf kvs := List.sizeOf_lt_of_mem kv.2
    have h2 : sizeOf kv.1.2 < sizeOf kv.1 := by
      obtain ⟨a, m⟩ := kv
      obtain ⟨k, v⟩ := a
      simp only [Prod.mk.sizeOf_spec]
      omega
    simp only [Py.pdict.sizeOf_spec]
    omega

/-- Python `str` of a `Py` value. -/
def pyStr : Py → String
  | pstr s => s
  | p => pyRepr p

/-- Python truthiness. -/
def pyTruthy : Py → Bool
  | pnone => false
  | pbool b => b
  | pint n => n != 0
  | pfloat q => decide (q ≠ 0)
  | pstr s => s != ""
  | plist xs => !xs.isEmpty
  | pdict kvs => !kvs.isEmpty

/-- Python `p == s` against a string literal: true only for an equal `str`. -/
def pyEqStr (p : Py) (s : String) : Bool :=
  match p with
  | pstr t => t == s
  | _ => false

/-- Update the value stored at a key of an insertion-ordered dict, appending
the pair at the end if the key is absent (Python `d[k] = v`). -/
def dictSet (kvs : List (String × Py)) (k : String) (v : Py) : List (String × Py) :=
  match kvs with
  | [] => [(k, v)]
  | (k₀, v₀) :: t => if k₀ = k then (k, v) :: t else (k₀, v₀) :: dictSet t k v

/-- Python `d.get(key, default)`; raises `AttributeError` when the receiver is
not a dict. -/
def pyGetD (d : Py) (k : String) (dflt : Py) : Except String Py :=
  match d with
  | pdict kvs => pure ((List.lookup k kvs).getD dflt)
  | _ => throw "AttributeError"

/-- Python `key in d` for a string key: key test on dicts, membership on
lists, substring test on strings, `TypeError` otherwise. -/
def pyIn (k : String) (d : Py) : Except String Bool :=
  match d with
  | pdict kvs => pure (List.lookup k kvs).isSome
  | plist xs => pure (xs.any (fun x => pyEqStr x k))
  | pstr s => pure (containsSub s k)
  | _ => throw "TypeError"

/-- Python `d[key]` for a string key: `KeyError` when absent, `TypeError` on
non-dict receivers. -/
def pySubscript (d : Py) (k : String) : Except String Py :=
  match d with
  | pdict kvs =>
      match List.lookup k kvs with
      | some v => pure v
      | none => throw "KeyError"
  | _ => throw "TypeError"

/-- Python `d.items()`. -/
def pyItems (d : Py) : Except String (List (String × Py)) :=
  match d with
  | pdict kvs => pure kvs
  | _ => throw "AttributeError"

/-- Python iteration `for x in d`: lists yield elements, strings yield
one-character strings, dicts yield their keys, everything else raises
`TypeError`. -/
def pyIter (d : Py) : Except String (List Py) :=
  match d with
  | plist xs => pure xs
  | pstr s => pure (s.data.map (fun c => pstr ⟨[c]⟩))
  | pdict kvs => pure (kvs.map (fun kv => pstr kv.1))
  | _ => throw "TypeError"

/-- Python `sep.join(xs)`: every element must be a string. -/
def pyJoin (sep : String) (d : Py) : Except String String :=
  do
    let elems ← pyIter d
    let strs ← elems.mapM (fun e =>
      match e with
      | pstr s => pure s
      | _ => throw "TypeError")
    pure (sep.intercalate strs)

/-- First match of `re.findall` with the pattern of one-or-more digits/dots:
the first maximal run of `[0-9.]` characters, if any. -/
def firstNumToken (s : String) : Option String :=
  let t := (s.data.dropWhile (fun c => !(isDigitDot c))).takeWhile isDigitDot
  if t = [] then none else some ⟨t⟩

/-- Decimal digits to a natural number. -/
def digitsToNat (ds : List Char) : Nat :=
  ds.foldl (fun a c => a * 10 + (c.toNat - '0'.toNat)) 0

/-- Python `float(token)` for a token made of digits and dots: defined (one
dot at most, at least one digit) gives the exact rational value; `none`
models the `ValueError` that the callers catch. -/
def floatOfToken (t : String) : Option ℚ :=
  let dots := t.data.count '.'
  if dots ≤ 1 ∧ t.data.any Char.isDigit ∧ t.data.all isDigitDot then
    let intPart := t.data.takeWhile (fun c => c != '.')
    let fracPart := (t.data.dropWhile (fun c => c != '.')).drop 1
    some ((digitsToNat intPart : ℚ) + (digitsToNat fracPart : ℚ) / (10 : ℚ) ^ fracPart.length)
  else none

/-- The numeric value `enhance_test_status` extracts from a test's `value`
field: numbers (including `bool`, an `int` subtype in Python) pass through
`float`, anything else goes through `str` and the first `[\d.]+` token;
`none` models the `continue` taken on missing tokens or `ValueError`. -/
def numericOf (v : Py) : Option ℚ :=
  match v with
  | pint n => some (n : ℚ)
  | pfloat q => some q
  | pbool b => some (if b then 1 else 0)
  | _ => (firstNumToken (pyStr v)).bind floatOfToken

/-- `isinstance(x, dict)`. -/
def isPyDict : Py → Bool
  | pdict _ => true
  | _ => false

/-- `isinstance(x, list)`. -/
def isPyList : Py → Bool
  | plist _ => true
  | _ => false

/-- `MedicalReportScanner.validate_parsed_data`: the three required keys
(`critical_values` is not among them) must be present, `patient_info` must be
a dict and `test_categories`/`abnormal_findings` lists.  The `all(key in
data ...)` generator short-circuits; `in` and the subscripts can raise on
non-dict input, which the caller's `except` treats as a failed attempt. -/
def validate_parsed_data (data : Py) : Except String Bool := do
  let b1 ← pyIn "patient_info" data
  if !b1 then return false
  let b2 ← pyIn "test_categories" data
  if !b2 then return false
  let b3 ← pyIn "abnormal_findings" data
  if !b3 then return false
  let pi ← pySubscript data "patient_info"
  if !isPyDict pi then return false
  let tc ← pySubscript data "test_categories"
  if !isPyList tc then return false
  let ab ← pySubscript data "abnormal_findings"
  if !isPyList ab then return false
  return true

/-- The body of the inner loop of `MedicalReportScanner.enhance_test_status`
for one test: lower-cased `test_name` drives three recognized branches
(`hba1c`/`glycosylated hemoglobin`; `glucose` and `fasting`; `cholesterol`
and `total`), each rewriting `status` (and, off the normal branch,
`clinical_significance`) from the first numeric token of `value`; numeric
failure means `continue`.  `.get`/`.lower()` on ill-typed data raise
`AttributeError`, uncaught by the inner `except`. -/
def enhanceTest (test : Py) : Except String Py :=
  match test with
  | pdict kvs =>
    match (List.lookup "test_name" kvs).getD (pstr "") with
    | pstr tn0 =>
      let test_name := pyLower tn0
      let value_str := (List.lookup "value" kvs).getD (pstr "")
      match numericOf value_str with
      | none => pure test
      | some value =>
        if containsSub test_name "hba1c" || containsSub test_name "glycosylated hemoglobin" then
          if value ≥ (6.5 : ℚ) then
            pure (pdict (dictSet (dictSet kvs "status" (pstr "high"))
              "clinical_significance" (pstr "Suggests diabetes")))
          else if value ≥ (5.7 : ℚ) then
            pure (pdict (dictSet (dictSet kvs "status" (pstr "borderline"))
              "clinical_significance" (pstr "Prediabetic range")))
          else
            pure (pdict (dictSet kvs "status" (pstr "normal")))
        else if containsSub test_name "glucose" && containsSub test_name "fasting" then
          if value ≥ (126 : ℚ) then
            pure (pdict (dictSet (dictSet kvs "status" (pstr "high"))
              "clinical_significance" (pstr "Diabetic range")))
          else if value ≥ (100 : ℚ) then
            pure (pdict (dictSet (dictSet kvs "status" (pstr "borderline"))
              "clinical_significance" (pstr "Impaired fasting glucose")))
          else
            pure (pdict (dictSet kvs "status" (pstr "normal")))
        else if containsSub test_name "cholesterol" && containsSub test_name "total" then
          if value ≥ (240 : ℚ) then
            pure (pdict (dictSet (dictSet kvs "status" (pstr "high"))
              "clinical_significance" (pstr "High cardiovascular risk")))
          else if value ≥ (200 : ℚ) then
            pure (pdict (dictSet (dictSet kvs "status" (pstr "borderline"))
              "clinical_significance" (pstr "Borderline high")))
          else
            pure (pdict (dictSet kvs "status" (pstr "normal")))
        else
          pure test
    | _ => throw "AttributeError"
  | _ => throw "AttributeError"

/-- One iteration of the outer loop of `enhance_test_status`: walk
`category.get('tests', [])`, rewriting each test in place. A non-list but
iterable `tests` value yields non-dict elements, on which the first
`test.get` raises. -/
def enhanceCategory (cat : Py) : Except String Py :=
  match cat with
  | pdict kvs =>
    match List.lookup "tests" kvs with
    | none => pure cat
    | some (plist ts) => do
        let ts2 ← ts.mapM enhanceTest
        pure (pdict (dictSet kvs "tests" (plist ts2)))
    | some other => do
        let elems ← pyIter other
        let _ ← elems.mapM enhanceTest
        pure cat
  | _ => throw "AttributeError"

/-- `MedicalReportScanner.enhance_test_status` over
`parsed_data.get('test_categories', [])`. -/
def enhance_test_status (parsed_data : Py) : Except String Py :=
  match parsed_data with
  | pdict kvs =>
    match List.lookup "test_categories" kvs with
    | none => pure parsed_data
    | some (plist cats) => do
        let cats2 ← cats.mapM enhanceCategory
        pure (pdict (dictSet kvs "test_categories" (plist cats2)))
    | some other => do
        let elems ← pyIter other
        let _ ← elems.mapM enhanceCategory
        pure parsed_data
  | _ => throw "AttributeError"

/-- Attempt of the salutation pattern `(Mr\.|Mrs\.|Ms\.)\s+([A-Za-z\s]+)` at
the head of the text: one salutation literal, then at least one whitespace,
then a greedy run of letters/whitespace; returns the whole match
(`group(0)`). -/
def nameMatchAt (s : List Char) : Option (List Char) :=
  match ["Mr.".data, "Mrs.".data, "Ms.".data].find? (fun p => p.isPrefixOf s) with
  | none => none
  | some p =>
    let run := (s.drop p.length).takeWhile isNameChar
    if 2 ≤ run.length ∧ isPySpace (run.headD 'x') then some (p ++ run) else none

/-- `re.search` of the salutation pattern: first position with a match. -/
def nameSearch : List Char → Option (List Char)
  | [] => none
  | c :: s =>
    match nameMatchAt (c :: s) with
    | some m => some m
    | none => nameSearch s

/-- Attempt of `(\d+)\s+[Yy]ears` at the head of the text, returning
`group(1)` (the digits). -/
def ageMatchAt (s : List Char) : Option (List Char) :=
  let ds := s.takeWhile Char.isDigit
  if ds = [] then none
  else
    let rest := s.drop ds.length
    let ws := rest.takeWhile isPySpace
    if ws = [] then none
    else
      let rest2 := rest.drop ws.length
      if "Years".data.isPrefixOf rest2 || "years".data.isPrefixOf rest2 then some ds else none

/-- `re.search` of the age pattern. -/
def ageSearch : List Char → Option (List Char)
  | [] => none
  | c :: s =>
    match ageMatchAt (c :: s) with
    | some m => some m
    | none => ageSearch s

/-- `re.search` of `(Male|Female)`, alternation tried left to right at each
position. -/
def genderSearch : List Char → Option String
  | [] => none
  | c :: s =>
    if "Male".data.isPrefixOf (c :: s) then some "Male"
    else if "Female".data.isPrefixOf (c :: s) then some "Female"
    else genderSearch s

/-- Attempt of the tail `\s*[-–]\s*[0-9.-]+` of the reference-range group at
the head of the text, returning the matched span. -/
def rangeTail (after : List Char) : Option (List Char) :=
  let ws1 := after.takeWhile isPySpace
  match after.drop ws1.length with
  | d :: rest =>
    if d = '-' || d = '–' then
      let ws2 := rest.takeWhile isPySpace
      let g := (rest.drop ws2.length).takeWhile isRangeChar
      if g = [] then none else some (ws1 ++ [d] ++ ws2 ++ g)
    else none
  | [] => none

/-- Greedy backtracking of the first `[0-9.-]+` chunk of the range group:
try the longest chunk first. -/
def rangeSplit (r : List Char) : Nat → Option (List Char)
  | 0 => none
  | n + 1 =>
    match rangeTail (r.drop (n + 1)) with
    | some t => some (r.take (n + 1) ++ t)
    | none => rangeSplit r n

/-- The optional group `([0-9.-]+\s*[-–]\s*[0-9.-]+)?` at the head of the
text (`none` when the group matches empty). -/
def rangeMatch (r : List Char) : Option (List Char) :=
  let bigR := r.takeWhile isRangeChar
  if bigR = [] then none else rangeSplit r bigR.length

/-- Attempt of the fallback test pattern
`([A-Za-z\s]+):\s*([0-9.]+)\s*([A-Za-z/%]*)\s*\(?([0-9.-]+\s*[-–]\s*[0-9.-]+)?\)?`
at the head of the text, returning the four capture groups.  The name run is
effectively non-backtracking (it is a maximal `[A-Za-z\s]` run that must be
followed by a literal `:`), and everything after the value group is
optional. -/
def testMatchAt (s : List Char) :
    Option (List Char × List Char × List Char × Option (List Char)) :=
  let g1 := s.takeWhile isNameChar
  if g1 = [] then none
  else
    match s.drop g1.length with
    | ':' :: r2 =>
      let afterWs := r2.dropWhile isPySpace
      let g2 := afterWs.takeWhile isDigitDot
      if g2 = [] then none
      else
        let r3 := (afterWs.drop g2.length).dropWhile isPySpace
        let g3 := r3.takeWhile isUnitChar
        let r4 := (r3.drop g3.length).dropWhile isPySpace
        let r5 := if r4.headD ' ' = '(' then r4.drop 1 else r4
        some (g1, g2, g3, rangeMatch r5)
    | _ => none

/-- `re.search` of the fallback test pattern over a line. -/
def testSearch : List Char → Option (List Char × List Char × List Char × Option (List Char))
  | [] => none
  | c :: s =>
    match testMatchAt (c :: s) with
    | some m => some m
    | none => testSearch s

/-- The test dict `create_fallback_structure` appends for a line whose
`re.search` matches. -/
def fallbackTestOfLine (line : String) : Option Py :=
  (testSearch line.data).map (fun g =>
    pdict [("test_name", pstr (pyStrip ⟨g.1⟩)),
           ("value", pstr ⟨g.2.1⟩),
           ("unit", pstr ⟨g.2.2.1⟩),
           ("reference_range", pstr (match g.2.2.2 with
             | some rr => String.mk rr
             | none => "Not specified")),
           ("status", pstr "unknown")])

/-- One line of the patient-info scan of `create_fallback_structure`: the
salutation, age and gender patterns each update their field when the guard
substring occurs and the regex matches. -/
def fallbackPatientStep (acc : String × String × String) (line : String) :
    String × String × String :=
  let name :=
    if containsSub line "Mr." || containsSub line "Mrs." || containsSub line "Ms." then
      match nameSearch line.data with
      | some m => pyStrip ⟨m⟩
      | none => acc.1
    else acc.1
  let age :=
    if containsSub line "Years" || containsSub line "years" then
      match ageSearch line.data with
      | some ds => String.mk ds ++ " years"
      | none => acc.2.1
    else acc.2.1
  let gender :=
    if containsSub line "Male" || containsSub line "Female" then
      match genderSearch line.data with
      | some g => g
      | none => acc.2.2
    else acc.2.2
  (name, age, gender)

/-- The fixed abnormal-findings message of the fallback structure. -/
def fallbackAbnormalMsg : String :=
  "Unable to automatically detect abnormal findings - manual review recommended"

/-- `MedicalReportScanner.create_fallback_structure`: deterministic
regex-based synthesis of a ParsedReport from the raw text. -/
def create_fallback_structure (original_text : String) : Py :=
  let lines := pySplit original_text "\n"
  let pinfo := (lines.take 20).foldl fallbackPatientStep
    ("Not specified", "Not specified", "Not specified")
  let potential_tests := lines.filterMap fallbackTestOfLine
  pdict [("patient_info", pdict
            [("name", pstr pinfo.1),
             ("age", pstr pinfo.2.1),
             ("gender", pstr pinfo.2.2),
             ("report_date", pstr "Not specified"),
             ("lab_number", pstr "Not specified")]),
         ("test_categories",
            if potential_tests.isEmpty then plist []
            else plist [pdict [("category", pstr "General Tests"),
                               ("tests", plist (potential_tests.take 15))]]),
         ("abnormal_findings", plist [pstr fallbackAbnormalMsg]),
         ("critical_values", plist [])]

/-- Outcome of one AI attempt inside `parse_medical_data` or
`analyze_diagnosis`: `err` models `generate_content` raising or
`json.loads` failing; `ok d` models a successfully decoded JSON value. -/
inductive AttemptOutcome where
  | err : AttemptOutcome
  | ok : Py → AttemptOutcome

/-- `max_retries` of `parse_medical_data`. -/
def parse_max_retries : Nat := 3

/-- The retry loop of `MedicalReportScanner.parse_medical_data` from a given
attempt index: an exception (transport or JSON decode, or one escaping from
validation/enhancement) falls back on the last attempt and otherwise
retries; a validation failure retries; a validated value is returned after
status enhancement; exhausting the loop falls back. -/
def parse_medical_data_from (oracle : Nat → AttemptOutcome) (text : String) :
    Nat → Nat → Py
  | 0, _ => create_fallback_structure text
  | remaining + 1, attempt =>
    match oracle attempt with
    | .err =>
      if attempt = parse_max_retries - 1 then create_fallback_structure text
      else parse_medical_data_from oracle text remaining (attempt + 1)
    | .ok d =>
      match validate_parsed_data d with
      | .ok true =>
        match enhance_test_status d with
        | .ok d2 => d2
        | .error _ =>
          if attempt = parse_max_retries - 1 then create_fallback_structure text
          else parse_medical_data_from oracle text remaining (attempt + 1)
      | .ok false => parse_medical_data_from oracle text remaining (attempt + 1)
      | .error _ =>
        if attempt = parse_max_retries - 1 then create_fallback_structure text
        else parse_medical_data_from oracle text remaining (attempt + 1)

/-- `MedicalReportScanner.parse_medical_data`: `for attempt in
range(max_retries)` starting at attempt 0. -/
def parse_medical_data (oracle : Nat → AttemptOutcome) (text : String) : Py :=
  parse_medical_data_from oracle text parse_max_retries 0

/-- Does this attempt outcome fail to produce a return from
`parse_medical_data` (exception, invalid structure, or an exception escaping
enhancement)? -/
def parseAttemptFails (o : AttemptOutcome) : Bool :=
  match o with
  | .err => true
  | .ok d =>
    match validate_parsed_data d with
    | .error _ => true
    | .ok false => true
    | .ok true =>
      match enhance_test_status d with
      | .error _ => true
      | .ok _ => false

/-- `MedicalReportScanner.validate_diagnosis_data`: the six required keys
(`positive_findings` is not among them), checked by a short-circuiting
`all(key in data ...)`. -/
def validate_diagnosis_data (data : Py) : Except String Bool := do
  let b1 ← pyIn "risk_assessment" data
  if !b1 then return false
  let b2 ← pyIn "potential_conditions" data
  if !b2 then return false
  let b3 ← pyIn "recommendations" data
  if !b3 then return false
  let b4 ← pyIn "follow_up_tests" data
  if !b4 then return false
  let b5 ← pyIn "red_flags" data
  if !b5 then return false
  pyIn "summary" data

/-- `MedicalReportScanner.create_fallback_diagnosis`. -/
def create_fallback_diagnosis : Py :=
  pdict [("risk_assessment", pdict
            [("overall_risk", pstr "moderate"),
             ("cardiovascular_risk", pstr "moderate"),
             ("diabetes_risk", pstr "moderate"),
             ("risk_factors", plist [pstr "Unable to complete automated risk assessment"])]),
         ("potential_conditions", plist []),
         ("recommendations", plist
            [pdict [("category", pstr "medical"),
                    ("recommendation", pstr "Consult with healthcare provider for proper interpretation"),
                    ("priority", pstr "high"),
                    ("rationale", pstr "Professional medical interpretation required")]]),
         ("follow_up_tests", plist []),
         ("red_flags", plist []),
         ("positive_findings", plist []),
         ("summary", pstr "Automated analysis could not be completed. Please consult with a qualified healthcare professional for proper interpretation of these comprehensive lab results.")]

/-- `max_retries` of `analyze_diagnosis`. -/
def diagnosis_max_retries : Nat := 2

/-- The retry loop of `MedicalReportScanner.analyze_diagnosis` from a given
attempt index.  The prompt embeds `parsed_data` but the control flow and the
result depend only on the attempt outcomes. -/
def analyze_diagnosis_from (oracle : Nat → AttemptOutcome) : Nat → Nat → Py
  | 0, _ => create_fallback_diagnosis
  | remaining + 1, attempt =>
    match oracle attempt with
    | .err =>
      if attempt = diagnosis_max_retries - 1 then create_fallback_diagnosis
      else analyze_diagnosis_from oracle remaining (attempt + 1)
    | .ok d =>
      match validate_diagnosis_data d with
      | .ok true => d
      | .ok false => analyze_diagnosis_from oracle remaining (attempt + 1)
      | .error _ =>
        if attempt = diagnosis_max_retries - 1 then create_fallback_diagnosis
        else analyze_diagnosis_from oracle remaining (attempt + 1)

/-- `MedicalReportScanner.analyze_diagnosis` (the `parsed_data` argument only
feeds the prompt): `for attempt in range(max_retries)` starting at
attempt 0. -/
def analyze_diagnosis (oracle : Nat → AttemptOutcome) (_parsed_data : Py) : Py :=
  analyze_diagnosis_from oracle diagnosis_max_retries 0

/-- Does this attempt outcome fail to produce a return from
`analyze_diagnosis`? -/
def diagAttemptFails (o : AttemptOutcome) : Bool :=
  match o with
  | .err => true
  | .ok d =>
    match validate_diagnosis_data d with
    | .error _ => true
    | .ok b => !b

/-- One record of the medicine-insight path (`get_medicine_info_fast`
returns a dict with exactly these five fields). -/
structure MedicineInsight where
  name : String
  info_markdown : String
  url : String
  description : String
  status : String
deriving DecidableEq, Repr

/-- Outcome of one `fc.search` call: `raised` models a transport error or an
unconfigured client; `results` carries the ranked snippet dicts (string
fields suffice for the keys the source reads). -/
inductive SearchOutcome where
  | raised : String → SearchOutcome
  | results : List (List (String × String)) → SearchOutcome

/-- `ai_services.get_medicine_info_fast`: success record built from the
first snippet (or an empty one), and a quick fallback record with
`status="fallback"` on any exception. -/
def get_medicine_info_fast (search : String → SearchOutcome) (name : String) :
    MedicineInsight :=
  match search name with
  | .results data =>
    let snippet := data.headD []
    { name := name,
      info_markdown := (List.lookup "markdown" snippet).getD
        ((List.lookup "description" snippet).getD "Basic medicine information available"),
      url := (List.lookup "url" snippet).getD "N/A",
      description := (List.lookup "description" snippet).getD
        (name ++ " - Medicine information from search results"),
      status := "success" }
  | .raised _ =>
    { name := name,
      info_markdown := "## " ++ name ++ "\n\nCommon medicine. Please consult your pharmacist for detailed information.",
      url := "N/A",
      description := name ++ " - Please consult healthcare provider for usage and dosage information",
      status := "fallback" }

/-- Outcome of waiting on one worker future with `future.result(timeout=30)`:
`completed` means the worker function's value is available (the worker never
raises — `get_medicine_info_fast` catches everything), `failed` models a
timeout or executor-level error. -/
inductive FutureOutcome where
  | completed : FutureOutcome
  | failed : String → FutureOutcome

/-- The default `max_workers` of `get_multiple_medicines_concurrent`. -/
def concurrent_default_max_workers : Nat := 5

/-- The record `get_multiple_medicines_concurrent` appends for one future:
the worker's value, or the `status="error"` record built in the `except`
arm from `future_to_medicine[future]`. -/
def futureRecord (search : String → SearchOutcome) (fut : String → FutureOutcome)
    (name : String) : MedicineInsight :=
  match fut name with
  | .completed => get_medicine_info_fast search name
  | .failed e =>
    { name := name,
      info_markdown := "Timeout or error",
      url := "N/A",
      description := "Error: " ++ e,
      status := "error" }

/-- `ai_services.get_multiple_medicines_concurrent`: one future per input
name, results appended in completion order.  `completion` is the order in
which `as_completed` yields the futures — an arbitrary permutation of the
submitted names; the worker pool size (default 5) does not affect which
records are produced. -/
def get_multiple_medicines_concurrent (search : String → SearchOutcome)
    (fut : String → FutureOutcome) (completion : List String) : List MedicineInsight :=
  completion.map (futureRecord search fut)

/-- JSON escape sequences handled by the embedded `json.loads` fragment. -/
def jsonEscape (c : Char) : Option Char :=
  if c = '"' then some '"'
  else if c = '\\' then some '\\'
  else if c = '/' then some '/'
  else if c = 'n' then some '\n'
  else if c = 't' then some '\t'
  else if c = 'r' then some '\x0d'
  else if c = 'b' then some '\x08'
  else if c = 'f' then some '\x0c'
  else none

/-- Body of a JSON string after its opening quote: the decoded content and
the rest of the input after the closing quote. -/
def jsonStringContent : List Char → Option (String × List Char)
  | [] => none
  | c :: s =>
    if c = '"' then some ("", s)
    else if c = '\\' then
      match s with
      | e :: s2 =>
        match jsonEscape e with
        | some ce => (jsonStringContent s2).map (fun tr => (⟨ce :: tr.1.data⟩, tr.2))
        | none => none
      | [] => none
    else (jsonStringContent s).map (fun tr => (⟨c :: tr.1.data⟩, tr.2))

/-- JSON insignificant whitespace. -/
def skipJsonWs (s : List Char) : List Char :=
  s.dropWhile (fun c => c == ' ' || c == '\t' || c == '\n' || c == '\x0d')

/-- Comma-separated JSON strings up to the closing bracket. -/
def parseJsonItems (fuel : Nat) (s : List Char) : Option (List String × List Char) :=
  match fuel with
  | 0 => none
  | fuel + 1 =>
    match skipJsonWs s with
    | '"' :: rest =>
      match jsonStringContent rest with
      | none => none
      | some (str, rest2) =>
        match skipJsonWs rest2 with
        | ',' :: rest4 => (parseJsonItems fuel rest4).map (fun lr => (str :: lr.1, lr.2))
        | ']' :: rest4 => some ([str], rest4)
        | _ => none
    | _ => none

/-- `json.loads` restricted to arrays of strings — the only shape the
medicine-extraction call sites feed to it on the inputs these claims
concern.  `none` models a `json.JSONDecodeError` (caught by the caller's
bare `except`). -/
def parseJsonStringArray (t : String) : Option (List String) :=
  match skipJsonWs t.data with
  | '[' :: rest =>
    match skipJsonWs rest with
    | ']' :: rest3 => if skipJsonWs rest3 = [] then some [] else none
    | rest2 =>
      match parseJsonItems rest2.length rest2 with
      | some (l, r) => if skipJsonWs r = [] then some l else none
      | none => none
  | _ => none

/-- The code-fence stripping of `analyze_prescription_with_gemini`
(`split('```json')[1].split('```')[0].strip()`, or the bare-fence variant).
-/
def codeFenceStripped (t : String) : String :=
  if containsSub t "```json" then
    pyStrip (((pySplit (((pySplit t "```json").drop 1).headD "") "```").headD ""))
  else if containsSub t "```" then
    pyStrip (((pySplit (((pySplit t "```").drop 1).headD "") "```").headD ""))
  else t

/-- Name extraction of `analyze_prescription_with_gemini` (lines 132-150):
strip, strip fences, then either JSON-parse a bracketed array (`except` puts
the whole text as the single candidate) or comma-split into stripped,
quote-stripped, nonempty candidates. -/
def extract_medicine_names (resp : String) : List String :=
  let t := codeFenceStripped (pyStrip resp)
  if pyStartsWith t "[" && pyEndsWith t "]" then
    match parseJsonStringArray t with
    | some l => l
    | none => [t]
  else
    ((pySplit t ",").map (fun n => pyStripChars ['"', '\''] (pyStrip n))).filter
      (fun n => n != "")

/-- The cleanup chain applied to one candidate medicine name (lines
156-160): strip surrounding quotes/backticks, delete fence markers, the
bracket characters and every occurrence of `json`, collapse `", "` and
delete remaining double quotes. -/
def clean_medicine_pipeline (medicine : String) : String :=
  let c1 := pyStripChars ['"', '\'', '`'] (pyStrip medicine)
  let c2 := pyStrip (pyReplace (pyReplace c1 "```json" "") "```" "")
  let c3 := pyStrip (pyReplace (pyReplace (pyReplace c2 "[" "") "]" "") "json" "")
  pyStrip (pyReplace (pyReplace c3 "\", \"" ", ") "\"" "")

/-- One iteration of the cleaning loop of `analyze_prescription_with_gemini`
(lines 154-166): a still-comma-joined cleaned string is split (without
filtering), otherwise the cleaned name is kept unless empty or a leftover
artifact. -/
def clean_step (medicine : String) : List String :=
  let cm := clean_medicine_pipeline medicine
  if containsSub cm "," then
    (pySplit cm ",").map (fun med => pyStripChars ['"', '\''] (pyStrip med))
  else if cm != "" && !(["[", "]", "json", ""].contains cm) then [cm]
  else []

/-- The cleaning stage of `analyze_prescription_with_gemini` (lines
152-169): clean every candidate, drop empty/whitespace-only results,
deduplicate (`list(set(...))`). -/
def clean_medicine_names (medicine_names : List String) : List String :=
  pyDedup (((medicine_names.map clean_step).flatten).filter
    (fun med => med != "" && pyStrip med != ""))

/-- The cleaned, deduplicated medicine names `analyze_prescription_with_gemini`
derives from one AI response. -/
def prescription_medicine_names (resp : String) : List String :=
  clean_medicine_names (extract_medicine_names resp)

/-- The fixed fallback vocabulary of `analyze_health_record_with_ai`. -/
def common_medicines : List String :=
  ["amoxicillin", "metformin", "lisinopril", "aspirin", "ibuprofen", "acetaminophen"]

/-- Name extraction of `analyze_health_record_with_ai` (lines 711-723): like
`extract_medicine_names` but with no code-fence stripping step. -/
def health_record_extract (resp : String) : List String :=
  let t := pyStrip resp
  if pyStartsWith t "[" && pyEndsWith t "]" then
    match parseJsonStringArray t with
    | some l => l
    | none => [t]
  else
    ((pySplit t ",").map (fun n => pyStripChars ['"', '\''] (pyStrip n))).filter
      (fun n => n != "")

/-- The cleaning stage of `analyze_health_record_with_ai` (lines 726-747) as
written: the `for medicine in medicine_names` loop body is only the
`continue` guard, and the cleanup statements that follow sit at the loop's
own indentation level — so they run once, after the loop, on the loop
variable's final value (the last candidate).  All other candidates are
dropped.  On an empty candidate list the loop never binds `medicine` and
line 733 raises `NameError`, which the local `except (AttributeError,
TypeError)` does not catch. -/
def health_record_cleaned (medicine_names : List String) : Except String (List String) :=
  match medicine_names.getLast? with
  | none => throw "NameError"
  | some medicine =>
    let cm := clean_medicine_pipeline medicine
    if containsSub cm "," then
      pure (((pySplit cm ",").filter (fun med => pyStrip med != "")).map
        (fun med => pyStripChars ['"', '\''] (pyStrip med)))
    else if cm != "" && !(["[", "]", "json", ""].contains cm) then pure [cm]
    else pure []

/-- The medicine-name determination of the prescription branch of
`analyze_health_record_with_ai` (lines 711-770): extraction, the (slipped)
cleaning, dedup, then the fixed-vocabulary scan of `title description`;
only when that also finds nothing is `ValueError("No medicine names found
in the prescription")` raised. -/
def health_record_medicine_names (title description resp : String) :
    Except String (List String) := do
  let raw := health_record_extract resp
  let cleaned ← health_record_cleaned raw
  let names := pyDedup (cleaned.filter (fun med => med != "" && pyStrip med != ""))
  if names.isEmpty then
    let text := pyLower (title ++ " " ++ description)
    let hits := (common_medicines.filter (fun med => containsSub text med)).map pyTitle
    if hits.isEmpty then throw "No medicine names found in the prescription"
    else pure hits
  else pure names

/-- `.upper()`/`.title()` receiver check: Python raises `AttributeError`
when the value is not a string. -/
def asStrPy (p : Py) : Except String String :=
  match p with
  | pstr s => pure s
  | _ => throw "AttributeError"

/-- `table.get(key, default)` where `table` is a literal str-keyed dict and
`key` is a runtime Python value: only an equal string hits an entry,
unhashable keys (lists, dicts) raise `TypeError`. -/
def pyKeyGet (table : List (String × String)) (key : Py) (dflt : String) :
    Except String String :=
  match key with
  | pstr s => pure ((List.lookup s table).getD dflt)
  | plist _ => throw "TypeError"
  | pdict _ => throw "TypeError"
  | _ => pure dflt

/-- The icon table of the patient-information block. -/
def patientIcons : List (String × String) :=
  [("name", "👤"), ("age", "📅"), ("gender", "⚧"), ("report_date", "📋"),
   ("lab_number", "🆔")]

/-- The `risk_colors` table. -/
def riskColors : List (String × String) :=
  [("low", "🟢"), ("moderate", "🟡"), ("high", "🔴")]

/-- The `status_icons` table. -/
def statusIcons : List (String × String) :=
  [("normal", "🟢 Normal"), ("abnormal", "🔴 Abnormal"), ("high", "🔺 High"),
   ("low", "🔻 Low"), ("borderline", "🟡 Borderline"), ("unknown", "⚪ Unknown")]

/-- The `prob_icons` table. -/
def probIcons : List (String × String) :=
  [("low", "🟢 Low"), ("moderate", "🟡 Moderate"), ("high", "🔴 High")]

/-- The `priority_icons` table. -/
def priorityIcons : List (String × String) :=
  [("low", "🔵"), ("medium", "🟡"), ("high", "🔴")]

/-- The `category_icons` table. -/
def categoryIcons : List (String × String) :=
  [("Lifestyle", "🏃‍♂️"), ("Dietary", "🥗"), ("Medical", "⚕️"),
   ("Follow-Up", "📅"), ("General", "📌")]

/-- `categories[cat].append(rec_text)` preceded by
`if cat not in categories: categories[cat] = []` on an insertion-ordered
dict of string lists. -/
def catAppend (categories : List (String × List String)) (cat txt : String) :
    List (String × List String) :=
  match categories with
  | [] => [(cat, [txt])]
  | (c, ts) :: rest =>
    if c = cat then (c, ts ++ [txt]) :: rest else (c, ts) :: catAppend rest cat txt

/-- The fixed header of the comprehensive report (`report = f"""..."""` at
lines 514-529), as a function of the timestamp. -/
def reportHeader (timestamp : String) : String :=
  "\n# 🏥 COMPREHENSIVE MEDICAL REPORT ANALYSIS\n**Generated on:** " ++ timestamp ++
  "  \n**Analysis System:** AI Medical Report Scanner v2.0  \n**Report Type:** Comprehensive Lab Panel Analysis\n\n---\n\n## ⚠️ MEDICAL DISCLAIMER\nThis analysis is generated by AI for educational and informational purposes only. \n**ALWAYS consult with qualified healthcare professionals for medical decisions and treatment.**\n\n---\n\n## 👤 PATIENT INFORMATION\n"

/-- `MedicalReportScanner.generate_comprehensive_report`.  The scanner's AI
client (`self.model`) is in scope in the source but never used here; it is
kept as the `_model` parameter so that the renderer's independence from the
AI service is a statement about this definition.  The current timestamp is
the `timestamp` parameter (frozen clock). -/
def generate_comprehensive_report (_model : Nat → String) (parsed_data diagnosis : Py)
    (timestamp : String) : Except String String := do
  let mut report := reportHeader timestamp
  if (← pyIn "patient_info" parsed_data) then
    let patient ← pySubscript parsed_data "patient_info"
    for kv in (← pyItems patient) do
      let key := kv.1
      let value := kv.2
      if pyTruthy value && !(pyEqStr value "Not specified") then
        let icon := (List.lookup key patientIcons).getD "📌"
        report := report ++ icon ++ " **" ++ pyTitle (pyReplace key "_" " ") ++ ":** " ++
          pyStr value ++ "\n"
  if pyTruthy diagnosis then
    if (← pyIn "risk_assessment" diagnosis) then
      let risk ← pySubscript diagnosis "risk_assessment"
      report := report ++ "\n## 🎯 RISK ASSESSMENT SUMMARY\n"
      let overall_risk ← pyGetD risk "overall_risk" (pstr "moderate")
      let color ← pyKeyGet riskColors overall_risk "🟡"
      let ors ← asStrPy overall_risk
      report := report ++ "**Overall Health Risk:** " ++ color ++ " **" ++ pyUpper ors ++
        "**\n\n"
      if (← pyIn "cardiovascular_risk" risk) then
        let cv_risk ← pySubscript risk "cardiovascular_risk"
        let cvColor ← pyKeyGet riskColors cv_risk "🟡"
        let cvs ← asStrPy cv_risk
        report := report ++ "**Cardiovascular Risk:** " ++ cvColor ++ " " ++ pyTitle cvs ++ "\n"
      if (← pyIn "diabetes_risk" risk) then
        let dm_risk ← pySubscript risk "diabetes_risk"
        let dmColor ← pyKeyGet riskColors dm_risk "🟡"
        let dms ← asStrPy dm_risk
        report := report ++ "**Diabetes Risk:** " ++ dmColor ++ " " ++ pyTitle dms ++ "\n"
  report := report ++ "\n## 📊 DETAILED TEST RESULTS\n"
  let hasTc ← pyIn "test_categories" parsed_data
  let tcTruthy ←
    if hasTc then do
      pure (pyTruthy (← pySubscript parsed_data "test_categories"))
    else pure false
  if hasTc && tcTruthy then
    for category in (← pyIter (← pySubscript parsed_data "test_categories")) do
      if pyTruthy (← pyGetD category "tests" pnone) then
        report := report ++ "\n### 🔬 " ++
          pyStr (← pyGetD category "category" (pstr "Unknown Category")) ++ "\n"
        report := report ++ "| Test | Value | Reference Range | Status |\n"
        report := report ++ "|------|-------|-----------------|--------|\n"
        for test in (← pyIter (← pySubscript category "tests")) do
          let test_name ← pyGetD test "test_name" (pstr "Unknown Test")
          let value := pyStr (← pyGetD test "value" (pstr "N/A")) ++ " " ++
            pyStr (← pyGetD test "unit" (pstr ""))
          let ref_range ← pyGetD test "reference_range" (pstr "N/A")
          let status ← pyGetD test "status" (pstr "unknown")
          let status_display ← pyKeyGet statusIcons status "⚪ Unknown"
          report := report ++ "| " ++ pyStr test_name ++ " | " ++ value ++ " | " ++
            pyStr ref_range ++ " | " ++ status_display ++ " |\n"
        report := report ++ "\n"
  else
    report := report ++ "No structured test results could be extracted from the report.\n"
  if pyTruthy diagnosis then
    if pyTruthy (← pyGetD diagnosis "red_flags" pnone) then
      report := report ++ "\n## 🚨 CRITICAL FINDINGS - IMMEDIATE ATTENTION REQUIRED\n"
      for flag in (← pyIter (← pySubscript diagnosis "red_flags")) do
        report := report ++ "- ⚠️ **" ++ pyStr flag ++ "**\n"
      report := report ++ "\n**🚑 ACTION REQUIRED:** Contact your healthcare provider immediately.\n"
  let hasAb ← pyIn "abnormal_findings" parsed_data
  if hasAb then
    if pyTruthy (← pySubscript parsed_data "abnormal_findings") then
      report := report ++ "\n## ⚠️ ABNORMAL FINDINGS\n"
      for finding in (← pyIter (← pySubscript parsed_data "abnormal_findings")) do
        report := report ++ "- 🔴 " ++ pyStr finding ++ "\n"
  if pyTruthy diagnosis then
    if pyTruthy (← pyGetD diagnosis "positive_findings" pnone) then
      report := report ++ "\n## ✅ POSITIVE FINDINGS\n"
      for finding in (← pyIter (← pySubscript diagnosis "positive_findings")) do
        report := report ++ "- 🟢 " ++ pyStr finding ++ "\n"
  if pyTruthy diagnosis then
    if pyTruthy (← pyGetD diagnosis "potential_conditions" pnone) then
      report := report ++ "\n## 🔍 POTENTIAL CONDITIONS TO DISCUSS WITH YOUR DOCTOR\n"
      for condition in (← pyIter (← pySubscript diagnosis "potential_conditions")) do
        let prob ← pyGetD condition "probability" (pstr "moderate")
        let prob_display ← pyKeyGet probIcons prob "🟡 Moderate"
        report := report ++ "\n**" ++ pyStr (← pyGetD condition "condition" (pstr "Unknown")) ++
          "** - Probability: " ++ prob_display ++ "\n"
        report := report ++ "- **Description:** " ++
          pyStr (← pyGetD condition "description" (pstr "No description available")) ++ "\n"
        if pyTruthy (← pyGetD condition "supporting_evidence" pnone) then
          report := report ++ "- **Supporting Evidence:** " ++
            (← pyJoin ", " (← pySubscript condition "supporting_evidence")) ++ "\n"
    if pyTruthy (← pyGetD diagnosis "recommendations" pnone) then
      report := report ++ "\n## 💡 PERSONALIZED RECOMMENDATIONS\n"
      let mut categories : List (String × List String) := []
      for rec in (← pyIter (← pySubscript diagnosis "recommendations")) do
        let cat := pyTitle (← asStrPy (← pyGetD rec "category" (pstr "general")))
        let priority ← pyGetD rec "priority" (pstr "medium")
        let priority_display ← pyKeyGet priorityIcons priority "🟡"
        let mut rec_text := priority_display ++ " **" ++
          pyStr (← pyGetD rec "recommendation" (pstr "")) ++ "**"
        if pyTruthy (← pyGetD rec "rationale" pnone) then
          rec_text := rec_text ++ "\n  - *Rationale:* " ++ pyStr (← pySubscript rec "rationale")
        categories := catAppend categories cat rec_text
      for catRecs in categories do
        let icon := (List.lookup catRecs.1 categoryIcons).getD "📌"
        report := report ++ "\n### " ++ icon ++ " " ++ catRecs.1 ++ " Recommendations\n"
        for rec in catRecs.2 do
          report := report ++ "- " ++ rec ++ "\n"
    if pyTruthy (← pyGetD diagnosis "follow_up_tests" pnone) then
      report := report ++ "\n## 🧪 SUGGESTED FOLLOW-UP TESTS\n"
      for test in (← pyIter (← pySubscript diagnosis "follow_up_tests")) do
        report := report ++ "- 📋 " ++ pyStr test ++ "\n"
    if pyTruthy (← pyGetD diagnosis "summary" pnone) then
      report := report ++ "\n## 📋 EXECUTIVE SUMMARY\n"
      report := report ++ pyStr (← pySubscript diagnosis "summary") ++ "\n"
  report := report ++ "\n---\n"
  report := report ++ "## 📞 NEXT STEPS\n"
  report := report ++ "1. **Schedule an appointment** with your healthcare provider to discuss these results\n"
  report := report ++ "2. **Bring this report** to your medical consultation\n"
  report := report ++ "3. **Ask questions** about any findings you don't understand\n"
  report := report ++ "4. **Follow recommended** lifestyle modifications and follow-up tests\n\n"
  report := report ++ "**🔒 Privacy Note:** Keep this report confidential and share only with authorized healthcare providers.\n"
  report := report ++ "**⚕️ Remember:** This AI analysis supports but does not replace professional medical advice.\n"
  pure report

/-- The test names `enhance_test_status` actually recognizes: `hba1c` or
`glycosylated hemoglobin` as substrings, or both `glucose` and `fasting`,
or both `cholesterol` and `total` (of the lower-cased name). -/
def recognizedName (n : String) : Bool :=
  containsSub n "hba1c" || containsSub n "glycosylated hemoglobin" ||
  (containsSub n "glucose" && containsSub n "fasting") ||
  (containsSub n "cholesterol" && containsSub n "total")

/-- Chained dict lookup (observation helper for stating claims). -/
def pyDig : Py → List String → Option Py
  | p, [] => some p
  | pdict kvs, k :: ks =>
    match List.lookup k kvs with
    | some v => pyDig v ks
    | none => none
  | _, _ :: _ => none

theorem lookup_dictSet_self (kvs : List (String × Py)) (k : String) (v : Py) :
    List.lookup k (dictSet kvs k v) = some v := by
  induction kvs with
  | nil => simp [dictSet, List.lookup]
  | cons hd tl ih =>
    obtain ⟨k0, v0⟩ := hd
    by_cases h : k0 = k
    · subst h
      simp [dictSet, List.lookup]
    · have hb : (k == k0) = false := beq_eq_false_iff_ne.mpr (Ne.symm h)
      simp [dictSet, if_neg h, List.lookup, hb, ih]

theorem lookup_dictSet_ne (kvs : List (String × Py)) (k k' : String) (v : Py)
    (h : k' ≠ k) : List.lookup k' (dictSet kvs k v) = List.lookup k' kvs := by
  have hb : (k' == k) = false := beq_eq_false_iff_ne.mpr h
  induction kvs with
  | nil => simp [dictSet, List.lookup, hb]
  | cons hd tl ih =>
    obtain ⟨k0, v0⟩ := hd
    by_cases h0 : k0 = k
    · subst h0
      simp [dictSet, List.lookup, hb]
    · simp only [dictSet, if_neg h0, List.lookup]
      cases hx : (k' == k0) <;> simp [hx, ih]

theorem diag_step_fails (oracle : Nat → AttemptOutcome) (rem attempt : Nat)
    (h : diagAttemptFails (oracle attempt) = true)
    (hlast : attempt ≠ diagnosis_max_retries - 1) :
    analyze_diagnosis_from oracle (rem + 1) attempt =
      analyze_diagnosis_from oracle rem (attempt + 1) := by
  simp only [analyze_diagnosis_from]
  cases ho : oracle attempt with
  | err => simp [if_neg hlast]
  | ok d =>
    rw [ho] at h
    simp only [diagAttemptFails] at h
    cases hv : validate_diagnosis_data d with
    | error e => simp [hv, if_neg hlast]
    | ok b =>
      rw [hv] at h
      cases b with
      | true => simp at h
      | false => simp [hv]

theorem diag_last_fails (oracle : Nat → AttemptOutcome)
    (h : diagAttemptFails (oracle 1) = true) :
    analyze_diagnosis_from oracle 1 1 = create_fallback_diagnosis := by
  simp only [analyze_diagnosis_from]
  cases ho : oracle 1 with
  | err => simp
  | ok d =>
    rw [ho] at h
    simp only [diagAttemptFails] at h
    cases hv : validate_diagnosis_data d with
    | error e => simp [hv]
    | ok b =>
      rw [hv] at h
      cases b with
      | true => simp at h
      | false => simp [hv, analyze_diagnosis_from]

theorem diag_fallback_of_fails (oracle : Nat → AttemptOutcome) (parsed : Py)
    (h0 : diagAttemptFails (oracle 0) = true)
    (h1 : diagAttemptFails (oracle 1) = true) :
    analyze_diagnosis oracle parsed = create_fallback_diagnosis := by
  unfold analyze_diagnosis
  rw [show diagnosis_max_retries = 2 from rfl,
    diag_step_fails oracle 1 0 h0 (by decide)]
  exact diag_last_fails oracle h1

/-- C2: if the diagnosis AI call fails (exception or validation failure) on
both of its 2 attempts, `analyze_diagnosis` returns the fixed fallback
Diagnosis: overall, cardiovascular and diabetes risk all "moderate";
`potential_conditions`, `follow_up_tests`, `red_flags` and
`positive_findings` empty; exactly one recommendation, of category
"medical" and priority "high", advising consultation with a healthcare
provider; and a summary stating that automated analysis could not be
completed. -/
theorem C2_diagnosis_fallback (oracle : Nat → AttemptOutcome) (parsed : Py)
    (h0 : diagAttemptFails (oracle 0) = true)
    (h1 : diagAttemptFails (oracle 1) = true) :
    analyze_diagnosis oracle parsed = create_fallback_diagnosis ∧
    pyDig (analyze_diagnosis oracle parsed) ["risk_assessment", "overall_risk"] =
      some (pstr "moderate") ∧
    pyDig (analyze_diagnosis oracle parsed) ["risk_assessment", "cardiovascular_risk"] =
      some (pstr "moderate") ∧
    pyDig (analyze_diagnosis oracle parsed) ["risk_assessment", "diabetes_risk"] =
      some (pstr "moderate") ∧
    pyDig (analyze_diagnosis oracle parsed) ["potential_conditions"] = some (plist []) ∧
    pyDig (analyze_diagnosis oracle parsed) ["follow_up_tests"] = some (plist []) ∧
    pyDig (analyze_diagnosis oracle parsed) ["red_flags"] = some (plist []) ∧
    pyDig (analyze_diagnosis oracle parsed) ["positive_findings"] = some (plist []) ∧
    pyDig (analyze_diagnosis oracle parsed) ["recommendations"] =
      some (plist [pdict
        [("category", pstr "medical"),
         ("recommendation", pstr "Consult with healthcare provider for proper interpretation"),
         ("priority", pstr "high"),
         ("rationale", pstr "Professional medical interpretation required")]]) ∧
    containsSub "Consult with healthcare provider for proper interpretation"
      "healthcare provider" = true ∧
    (∃ summary, pyDig (analyze_diagnosis oracle parsed) ["summary"] = some (pstr summary) ∧
      containsSub summary "could not be completed" = true) := by
  have hf := diag_fallback_of_fails oracle parsed h0 h1
  rw [hf]
  refine ⟨rfl, rfl, rfl, rfl, rfl, rfl, rfl, rfl, rfl, by decide, ?_⟩
  exact ⟨_, rfl, by decide⟩

/-- Witness for C2 at a concrete failing oracle. -/
theorem C2_diagnosis_fallback_witness :
    analyze_diagnosis (fun _ => AttemptOutcome.err) pnone = create_fallback_diagnosis ∧
    pyDig (analyze_diagnosis (fun _ => AttemptOutcome.err) pnone)
      ["risk_assessment", "overall_risk"] = some (pstr "moderate") := by
  have h := C2_diagnosis_fallback (fun _ => AttemptOutcome.err) pnone rfl rfl
  exact ⟨h.1, h.2.1⟩

theorem parse_step_fails (oracle : Nat → AttemptOutcome) (text : String)
    (rem attempt : Nat) (h : parseAttemptFails (oracle attempt) = true)
    (hlast : attempt ≠ parse_max_retries - 1) :
    parse_medical_data_from oracle text (rem + 1) attempt =
      parse_medical_data_from oracle text rem (attempt + 1) := by
  simp only [parse_medical_data_from]
  cases ho : oracle attempt with
  | err => simp [if_neg hlast]
  | ok d =>
    rw [ho] at h
    simp only [parseAttemptFails] at h
    cases hv : validate_parsed_data d with
    | error e => simp [hv, if_neg hlast]
    | ok b =>
      rw [hv] at h
      cases b with
      | false => simp [hv]
      | true =>
        cases he : enhance_test_status d with
        | error e => simp [hv, he, if_neg hlast]
        | ok d2 => rw [he] at h; simp at h

theorem parse_last_fails (oracle : Nat → AttemptOutcome) (text : String)
    (h : parseAttemptFails (oracle 2) = true) :
    parse_medical_data_from oracle text 1 2 = create_fallback_structure text := by
  simp only [parse_medical_data_from]
  cases ho : oracle 2 with
  | err => simp
  | ok d =>
    rw [ho] at h
    simp only [parseAttemptFails] at h
    cases hv : validate_parsed_data d with
    | error e => simp [hv]
    | ok b =>
      rw [hv] at h
      cases b with
      | false => simp [hv, parse_medical_data_from]
      | true =>
        cases he : enhance_test_status d with
        | error e => simp [hv, he]
        | ok d2 => rw [he] at h; simp at h

theorem parse_fallback_of_fails (oracle : Nat → AttemptOutcome) (text : String)
    (h0 : parseAttemptFails (oracle 0) = true)
    (h1 : parseAttemptFails (oracle 1) = true)
    (h2 : parseAttemptFails (oracle 2) = true) :
    parse_medical_data oracle text = create_fallback_structure text := by
  unfold parse_medical_data
  rw [show parse_max_retries = 3 from rfl,
    parse_step_fails oracle text 2 0 h0 (by decide),
    parse_step_fails oracle text 1 1 h1 (by decide)]
  exact parse_last_fails oracle text h2

/-- C3: if the structured-parsing AI call fails on all 3 attempts,
`parse_medical_data` returns the deterministic fallback ParsedReport:
`test_categories` holds at most one catch-all "General Tests" category,
whose tests are the at most 15 entries matched by the
`name: value unit (range)` line pattern; `abnormal_findings` is exactly the
single fixed manual-review message; `critical_values` is empty. -/
theorem C3_parse_fallback_shape (oracle : Nat → AttemptOutcome) (text : String)
    (h0 : parseAttemptFails (oracle 0) = true)
    (h1 : parseAttemptFails (oracle 1) = true)
    (h2 : parseAttemptFails (oracle 2) = true) :
    parse_medical_data oracle text = create_fallback_structure text ∧
    pyDig (parse_medical_data oracle text) ["abnormal_findings"] =
      some (plist [pstr fallbackAbnormalMsg]) ∧
    pyDig (parse_medical_data oracle text) ["critical_values"] = some (plist []) ∧
    (∃ cats, pyDig (parse_medical_data oracle text) ["test_categories"] =
        some (plist cats) ∧
      cats.length ≤ 1 ∧
      (∀ c ∈ cats, c = pdict
        [("category", pstr "General Tests"),
         ("tests", plist (((pySplit text "\n").filterMap fallbackTestOfLine).take 15))]) ∧
      (((pySplit text "\n").filterMap fallbackTestOfLine).take 15).length ≤ 15) := by
  have hf := parse_fallback_of_fails oracle text h0 h1 h2
  rw [hf]
  refine ⟨rfl, rfl, rfl, ?_⟩
  by_cases hp : ((pySplit text "\n").filterMap fallbackTestOfLine).isEmpty
  · refine ⟨[], ?_, by simp, ?_, ?_⟩
    · simp [create_fallback_structure, pyDig, List.lookup, hp]
    · intro c hc
      exact absurd hc (List.not_mem_nil c)
    · exact List.length_take_le 15 _
  · refine ⟨[pdict
        [("category", pstr "General Tests"),
         ("tests", plist (((pySplit text "\n").filterMap fallbackTestOfLine).take 15))]],
      ?_, by simp, ?_, ?_⟩
    · simp [create_fallback_structure, pyDig, List.lookup, hp]
    · intro c hc
      simp only [List.mem_singleton] at hc
      exact hc
    · exact List.length_take_le 15 _

/-- Witness for C3 at a concrete failing oracle and text. -/
theorem C3_parse_fallback_shape_witness :
    parse_medical_data (fun _ => AttemptOutcome.err) "HbA1c: 6.8 % (4.0-5.6)" =
      create_fallback_structure "HbA1c: 6.8 % (4.0-5.6)" ∧
    pyDig (parse_medical_data (fun _ => AttemptOutcome.err) "HbA1c: 6.8 % (4.0-5.6)")
      ["critical_values"] = some (plist []) := by
  have h := C3_parse_fallback_shape (fun _ => AttemptOutcome.err)
    "HbA1c: 6.8 % (4.0-5.6)" rfl rfl rfl
  exact ⟨h.1, h.2.2.1⟩

/-- C10: when every parsing attempt fails, the returned fallback structure
never passes through `enhance_test_status`: every test of the result keeps
`status = "unknown"` and carries no `clinical_significance` key — including
tests (such as HbA1c) that the validated path would have re-scored. -/
theorem C10_fallback_not_enhanced (oracle : Nat → AttemptOutcome) (text : String)
    (h0 : parseAttemptFails (oracle 0) = true)
    (h1 : parseAttemptFails (oracle 1) = true)
    (h2 : parseAttemptFails (oracle 2) = true) :
    parse_medical_data oracle text = create_fallback_structure text ∧
    (∀ cats, pyDig (parse_medical_data oracle text) ["test_categories"] =
        some (plist cats) →
      ∀ c ∈ cats, ∀ kvsC ts, c = pdict kvsC →
        List.lookup "tests" kvsC = some (plist ts) →
        ∀ t ∈ ts, pyDig t ["status"] = some (pstr "unknown") ∧
          pyDig t ["clinical_significance"] = none) := by
  have hf := parse_fallback_of_fails oracle text h0 h1 h2
  rw [hf]
  refine ⟨rfl, ?_⟩
  intro cats hcats c hc kvsC ts hcEq hts t ht
  have htests : t ∈ (pySplit text "\n").filterMap fallbackTestOfLine := by
    by_cases hp : ((pySplit text "\n").filterMap fallbackTestOfLine).isEmpty
    · simp [create_fallback_structure, pyDig, List.lookup, hp] at hcats
      subst hcats
      simp at hc
    · simp [create_fallback_structure, pyDig, List.lookup, hp] at hcats
      subst hcats
      simp only [List.mem_singleton] at hc
      subst hc
      cases hcEq
      simp only [List.lookup] at hts
      rw [show ("tests" == "category") = false from rfl] at hts
      rw [show ("tests" == "tests") = true from rfl] at hts
      simp only [Option.some.injEq, plist.injEq] at hts
      subst hts
      exact List.mem_of_mem_take ht
  obtain ⟨line, hline, hfl⟩ := List.mem_filterMap.mp htests
  simp only [fallbackTestOfLine, Option.map_eq_some'] at hfl
  obtain ⟨g, hg, hteq⟩ := hfl
  subst hteq
  exact ⟨rfl, rfl⟩

/-- Witness for C10: an HbA1c line in the fallback keeps status "unknown". -/
theorem C10_fallback_not_enhanced_witness :
    pyDig (parse_medical_data (fun _ => AttemptOutcome.err) "HbA1c: 6.8 % (4.0-5.6)")
        ["test_categories"] =
      some (plist [pdict
        [("category", pstr "General Tests"),
         ("tests", plist [pdict
           [("test_name", pstr "c"), ("value", pstr "6.8"), ("unit", pstr "%"),
            ("reference_range", pstr "4.0-5.6"), ("status", pstr "unknown")]])]]) ∧
    pyDig (pdict [("test_name", pstr "c"), ("value", pstr "6.8"), ("unit", pstr "%"),
        ("reference_range", pstr "4.0-5.6"), ("status", pstr "unknown")])
      ["status"] = some (pstr "unknown") ∧
    pyDig (pdict [("test_name", pstr "c"), ("value", pstr "6.8"), ("unit", pstr "%"),
        ("reference_range", pstr "4.0-5.6"), ("status", pstr "unknown")])
      ["clinical_significance"] = none := by
  have h := C10_fallback_not_enhanced (fun _ => AttemptOutcome.err)
    "HbA1c: 6.8 % (4.0-5.6)" rfl rfl rfl
  have hdig : pyDig (parse_medical_data (fun _ => AttemptOutcome.err)
      "HbA1c: 6.8 % (4.0-5.6)") ["test_categories"] =
      some (plist [pdict
        [("category", pstr "General Tests"),
         ("tests", plist [pdict
           [("test_name", pstr "c"), ("value", pstr "6.8"), ("unit", pstr "%"),
            ("reference_range", pstr "4.0-5.6"), ("status", pstr "unknown")]])]]) := by
    rw [h.1]
    rfl
  refine ⟨hdig, ?_⟩
  exact h.2 _ hdig
    (pdict [("category", pstr "General Tests"),
      ("tests", plist [pdict [("test_name", pstr "c"), ("value", pstr "6.8"),
        ("unit", pstr "%"), ("reference_range", pstr "4.0-5.6"),
        ("status", pstr "unknown")]])])
    (by simp)
    [("category", pstr "General Tests"),
     ("tests", plist [pdict [("test_name", pstr "c"), ("value", pstr "6.8"),
       ("unit", pstr "%"), ("reference_range", pstr "4.0-5.6"),
       ("status", pstr "unknown")]])]
    [pdict [("test_name", pstr "c"), ("value", pstr "6.8"), ("unit", pstr "%"),
      ("reference_range", pstr "4.0-5.6"), ("status", pstr "unknown")]]
    rfl rfl _ (by simp)

theorem futureRecord_name (search : String → SearchOutcome)
    (fut : String → FutureOutcome) (n : String) :
    (futureRecord search fut n).name = n := by
  unfold futureRecord
  cases fut n with
  | failed e => rfl
  | completed =>
    unfold get_medicine_info_fast
    cases search n with
    | raised e => rfl
    | results data => rfl

/-- C4: for every list of k distinct medicine names,
`get_multiple_medicines_concurrent` returns exactly k MedicineInsight
records — one per input name, none dropped or duplicated, whatever the
completion order (any permutation of the submitted names) — with a default
worker-pool size of 5, and a per-name timeout/failure yields a record with
`status = "error"` instead of aborting the batch. -/
theorem C4_concurrent_batch (search : String → SearchOutcome)
    (fut : String → FutureOutcome) (names completion : List String)
    (hperm : completion.Perm names) :
    (get_multiple_medicines_concurrent search fut completion).length = names.length ∧
    ((get_multiple_medicines_concurrent search fut completion).map
      (fun r => r.name)).Perm names ∧
    (names.Nodup → ∀ n ∈ names,
      ((get_multiple_medicines_concurrent search fut completion).map
        (fun r => r.name)).count n = 1) ∧
    (∀ n ∈ names,
      futureRecord search fut n ∈ get_multiple_medicines_concurrent search fut completion) ∧
    (∀ n e, fut n = FutureOutcome.failed e → (futureRecord search fut n).status = "error") ∧
    concurrent_default_max_workers = 5 := by
  have hmap : (get_multiple_medicines_concurrent search fut completion).map
      (fun r => r.name) = completion := by
    unfold get_multiple_medicines_concurrent
    rw [List.map_map]
    have : ((fun r : MedicineInsight => r.name) ∘ futureRecord search fut) = id := by
      funext n
      exact futureRecord_name search fut n
    rw [this, List.map_id]
  refine ⟨?_, ?_, ?_, ?_, ?_, rfl⟩
  · unfold get_multiple_medicines_concurrent
    rw [List.length_map]
    exact hperm.length_eq
  · rw [hmap]
    exact hperm
  · intro hnd n hn
    rw [hmap, hperm.count_eq]
    exact List.count_eq_one_of_mem hnd hn
  · intro n hn
    unfold get_multiple_medicines_concurrent
    exact List.mem_map_of_mem (futureRecord search fut) (hperm.mem_iff.mpr hn)
  · intro n e he
    unfold futureRecord
    rw [he]

/-- Witness for C4: three names, completion order rotated, the lookup of
"C" timing out. -/
theorem C4_concurrent_batch_witness :
    (get_multiple_medicines_concurrent (fun _ => SearchOutcome.raised "down")
      (fun n => if n = "C" then FutureOutcome.failed "timeout" else FutureOutcome.completed)
      ["B", "C", "A"]).length = 3 ∧
    (futureRecord (fun _ => SearchOutcome.raised "down")
      (fun n => if n = "C" then FutureOutcome.failed "timeout" else FutureOutcome.completed)
      "C").status = "error" := by
  have h := C4_concurrent_batch (fun _ => SearchOutcome.raised "down")
    (fun n => if n = "C" then FutureOutcome.failed "timeout" else FutureOutcome.completed)
    ["A", "B", "C"] ["B", "C", "A"] (by decide)
  exact ⟨h.1, h.2.2.2.2.1 "C" "timeout" rfl⟩

/-- C9: `generate_comprehensive_report` performs no AI call — its result is
the same under any behavior of the scanner's AI client — and, with a frozen
clock, two invocations on identical parsed data and diagnosis produce
byte-identical report text. -/
theorem C9_report_renderer_pure (model1 model2 : Nat → String)
    (parsed_data diagnosis : Py) (timestamp : String) :
    generate_comprehensive_report model1 parsed_data diagnosis timestamp =
      generate_comprehensive_report model2 parsed_data diagnosis timestamp ∧
    generate_comprehensive_report model1 parsed_data diagnosis timestamp =
      generate_comprehensive_report model1 parsed_data diagnosis timestamp :=
  ⟨rfl, rfl⟩

/-- C7 (divergence witness): on the AI extraction `["Aspirin", "json"]` the
prescription branch of `analyze_health_record_with_ai` raises the
"no medicines found" failure although the AI tier extracted the medicine
name "Aspirin" — the mis-indented cleaning loop cleans only the last
extracted candidate, so "Aspirin" is dropped; the correctly indented
cleaning stage of `analyze_prescription_with_gemini` keeps it. -/
theorem C7_no_medicines_despite_extraction :
    health_record_extract "[\"Aspirin\", \"json\"]" = ["Aspirin", "json"] ∧
    health_record_medicine_names "Prescription" "take twice daily"
      "[\"Aspirin\", \"json\"]" =
      Except.error "No medicine names found in the prescription" ∧
    clean_medicine_names ["Aspirin", "json"] = ["Aspirin"] ∧
    health_record_medicine_names "Prescription" "aspirin daily"
      "[\"Aspirin\", \"json\"]" = Except.ok ["Aspirin"] := by
  exact ⟨rfl, rfl, rfl, rfl⟩

theorem mem_replAllAux (p r : List Char) (a : Char) :
    ∀ (s : List Char) (skip : Nat), a ∈ replAllAux p r skip s → a ∈ s ∨ a ∈ r := by
  intro s
  induction s with
  | nil => intro skip h; cases skip <;> simp [replAllAux] at h
  | cons c s ih =>
    intro skip h
    cases skip with
    | succ k =>
      rcases ih k h with hs | hr
      · exact Or.inl (List.mem_cons_of_mem c hs)
      · exact Or.inr hr
    | zero =>
      simp only [replAllAux] at h
      by_cases hp : p.isPrefixOf (c :: s)
      · rw [if_pos hp] at h
        rcases List.mem_append.mp h with hr | haux
        · exact Or.inr hr
        · rcases ih _ haux with hs | hr
          · exact Or.inl (List.mem_cons_of_mem c hs)
          · exact Or.inr hr
      · rw [if_neg hp] at h
        rcases List.mem_cons.mp h with hc | haux
        · exact Or.inl (hc ▸ List.mem_cons_self c s)
        · rcases ih _ haux with hs | hr
          · exact Or.inl (List.mem_cons_of_mem c hs)
          · exact Or.inr hr

theorem mem_replAll (p r : List Char) (a : Char) (s : List Char)
    (h : a ∈ replAll p r s) : a ∈ s ∨ a ∈ r := by
  unfold replAll at h
  by_cases hp : p.isEmpty
  · rw [if_pos hp] at h; exact Or.inl h
  · rw [if_neg hp] at h; exact mem_replAllAux p r a s 0 h

theorem not_mem_replAllAux_single (c0 : Char) :
    ∀ (s : List Char) (skip : Nat), c0 ∉ replAllAux [c0] [] skip s := by
  intro s
  induction s with
  | nil => intro skip; cases skip <;> simp [replAllAux]
  | cons c s ih =>
    intro skip
    cases skip with
    | succ k => exact ih k
    | zero =>
      simp only [replAllAux]
      by_cases hp : [c0].isPrefixOf (c :: s)
      · rw [if_pos hp]
        simpa using ih 0
      · rw [if_neg hp]
        intro h
        rcases List.mem_cons.mp h with hc | haux
        · apply hp
          subst hc
          simp [List.isPrefixOf]
        · exact ih 0 haux

theorem not_mem_pyReplace_single (c0 : Char) (s : String) :
    c0 ∉ (pyReplace s ⟨[c0]⟩ "").data := by
  unfold pyReplace replAll
  simpa using not_mem_replAllAux_single c0 s.data 0

theorem mem_stripBy (f : Char → Bool) (s : List Char) (a : Char)
    (h : a ∈ stripBy f s) : a ∈ s := by
  unfold stripBy at h
  rw [List.mem_reverse] at h
  have h2 := (List.dropWhile_sublist f).mem h
  rw [List.mem_reverse] at h2
  exact (List.dropWhile_sublist f).mem h2

theorem mem_splitOnLAux (sep : List Char) (a : Char) :
    ∀ (s : List Char) (skip : Nat) (part : List Char),
      part ∈ splitOnLAux sep skip s → a ∈ part → a ∈ s := by
  intro s
  induction s with
  | nil =>
    intro skip part hpart ha
    cases skip <;> simp only [splitOnLAux, List.mem_singleton] at hpart <;>
      (subst hpart; exact absurd ha (List.not_mem_nil a))
  | cons c s ih =>
    intro skip part hpart ha
    cases skip with
    | succ k => exact List.mem_cons_of_mem c (ih k part hpart ha)
    | zero =>
      simp only [splitOnLAux] at hpart
      by_cases hp : sep.isPrefixOf (c :: s)
      · rw [if_pos hp] at hpart
        rcases List.mem_cons.mp hpart with hnil | hrest
        · subst hnil; exact absurd ha (List.not_mem_nil a)
        · exact List.mem_cons_of_mem c (ih _ part hrest ha)
      · rw [if_neg hp] at hpart
        rcases htl : splitOnLAux sep 0 s with _ | ⟨t, ts⟩
        · rw [htl] at hpart
          simp only [List.mem_singleton] at hpart
          subst hpart
          simp only [List.mem_singleton] at ha
          exact ha ▸ List.mem_cons_self c s
        · rw [htl] at hpart
          rcases List.mem_cons.mp hpart with hhd | hrest
          · subst hhd
            rcases List.mem_cons.mp ha with hac | hat
            · exact hac ▸ List.mem_cons_self c s
            · exact List.mem_cons_of_mem c
                (ih 0 t (htl ▸ List.mem_cons_self t ts) hat)
          · exact List.mem_cons_of_mem c (ih 0 part (htl ▸ List.mem_cons_of_mem t hrest) ha)

theorem mem_pySplit (s sep : String) (part : String) (a : Char)
    (hpart : part ∈ pySplit s sep) (ha : a ∈ part.data) : a ∈ s.data := by
  unfold pySplit splitOnL at hpart
  rcases List.mem_map.mp hpart with ⟨l, hl, hpl⟩
  subst hpl
  by_cases hsep : sep.data.isEmpty
  · rw [if_pos hsep] at hl
    simp only [List.mem_singleton] at hl
    subst hl
    exact ha
  · rw [if_neg hsep] at hl
    exact mem_splitOnLAux sep.data a s.data 0 l hl ha

theorem mem_pyDedupAux (x : String) :
    ∀ (l seen : List String), x ∈ pyDedupAux seen l → x ∈ l := by
  intro l
  induction l with
  | nil => intro seen h; simp [pyDedupAux] at h
  | cons y ys ih =>
    intro seen h
    simp only [pyDedupAux] at h
    by_cases hs : seen.contains y
    · rw [if_pos hs] at h
      exact List.mem_cons_of_mem y (ih seen h)
    · rw [if_neg hs] at h
      rcases List.mem_cons.mp h with hx | hx
      · exact hx ▸ List.mem_cons_self y ys
      · exact List.mem_cons_of_mem y (ih (y :: seen) hx)

theorem mem_pyDedup (x : String) (l : List String) (h : x ∈ pyDedup l) : x ∈ l :=
  mem_pyDedupAux x l [] h

theorem not_mem_pyReplace (x p r : String) (c0 : Char) (hx : c0 ∉ x.data)
    (hr : c0 ∉ r.data) : c0 ∉ (pyReplace x p r).data := by
  intro h
  exact (mem_replAll p.data r.data c0 x.data h).elim hx hr

theorem not_mem_pyStrip (s : String) (c0 : Char) (hs : c0 ∉ s.data) :
    c0 ∉ (pyStrip s).data := by
  intro h
  exact hs (mem_stripBy isPySpace s.data c0 h)

theorem not_mem_pyStripChars (cs : List Char) (s : String) (c0 : Char)
    (hs : c0 ∉ s.data) : c0 ∉ (pyStripChars cs s).data := by
  intro h
  exact hs (mem_stripBy _ s.data c0 h)

theorem clean_pipeline_no_brackets (m : String) :
    '[' ∉ (clean_medicine_pipeline m).data ∧ ']' ∉ (clean_medicine_pipeline m).data := by
  unfold clean_medicine_pipeline
  have hlb : '[' ∉ (pyReplace
      (pyStrip (pyReplace (pyReplace (pyStripChars ['"', '\'', '`'] (pyStrip m))
        "```json" "") "```" "")) "[" "").data :=
    not_mem_pyReplace_single '[' _
  have hrb : ']' ∉ (pyReplace (pyReplace
      (pyStrip (pyReplace (pyReplace (pyStripChars ['"', '\'', '`'] (pyStrip m))
        "```json" "") "```" "")) "[" "") "]" "").data :=
    not_mem_pyReplace_single ']' _
  have hlb2 : '[' ∉ (pyReplace (pyReplace
      (pyStrip (pyReplace (pyReplace (pyStripChars ['"', '\'', '`'] (pyStrip m))
        "```json" "") "```" "")) "[" "") "]" "").data :=
    not_mem_pyReplace _ "]" "" '[' hlb (by simp)
  constructor
  · apply not_mem_pyStrip
    apply not_mem_pyReplace _ "\"" "" '[' ?_ (by simp)
    apply not_mem_pyReplace _ "\", \"" ", " '[' ?_ (by decide)
    apply not_mem_pyStrip
    exact not_mem_pyReplace _ "json" "" '[' hlb2 (by simp)
  · apply not_mem_pyStrip
    apply not_mem_pyReplace _ "\"" "" ']' ?_ (by simp)
    apply not_mem_pyReplace _ "\", \"" ", " ']' ?_ (by decide)
    apply not_mem_pyStrip
    exact not_mem_pyReplace _ "json" "" ']' hrb (by simp)

theorem clean_step_no_brackets (m x : String) (hx : x ∈ clean_step m) :
    '[' ∉ x.data ∧ ']' ∉ x.data := by
  have hcm := clean_pipeline_no_brackets m
  unfold clean_step at hx
  by_cases h : containsSub (clean_medicine_pipeline m) ","
  · rw [if_pos h] at hx
    rcases List.mem_map.mp hx with ⟨med, hmed, hxe⟩
    subst hxe
    constructor <;> intro ha
    · exact hcm.1 (mem_pySplit _ "," med '['
        hmed (mem_stripBy _ _ '[' (mem_stripBy _ _ '[' ha)))
    · exact hcm.2 (mem_pySplit _ "," med ']'
        hmed (mem_stripBy _ _ ']' (mem_stripBy _ _ ']' ha)))
  · rw [if_neg h] at hx
    by_cases h2 : clean_medicine_pipeline m != "" &&
        !(["[", "]", "json", ""].contains (clean_medicine_pipeline m))
    · rw [if_pos h2] at hx
      simp only [List.mem_singleton] at hx
      subst hx
      exact hcm
    · rw [if_neg h2] at hx
      exact absurd hx (List.not_mem_nil x)

theorem clean_names_no_brackets (names : List String) (x : String)
    (hx : x ∈ clean_medicine_names names) : '[' ∉ x.data ∧ ']' ∉ x.data := by
  unfold clean_medicine_names at hx
  have hx2 := mem_pyDedup x _ hx
  have hx3 := (List.mem_filter.mp hx2).1
  rcases List.mem_flatten.mp hx3 with ⟨l, hl, hxl⟩
  rcases List.mem_map.mp hl with ⟨m, hm, hml⟩
  subst hml
  exact clean_step_no_brackets m x hxl

/-- C8 (counterexample): the cleaned output is not always free of backticks
and of the substring "json": on the AI response `["a`js\"onb"]` (a JSON
string array whose single element is `a`js"onb`), the cleaned set is
`{"a`jsonb"}` — deleting the inner double quote fuses `js` and `onb` into a
literal `json`, and the interior backtick survives because `strip` only
trims ends. -/
theorem C8_cleaning_counterexample :
    prescription_medicine_names "[\"a`js\\\"onb\"]" = ["a`jsonb"] ∧
    containsSub "a`jsonb" "json" = true ∧
    "a`jsonb".data.contains '`' = true := by
  exact ⟨rfl, rfl, rfl⟩

/-- C8 (amended): the three fence styles of the AI response all produce the
cleaned, deduplicated set of "A" and "B", and no element of any cleaned
output contains the character `[` or the character `]` (backticks and
`json` substrings can survive cleaning, as the counterexample shows). -/
theorem C8_cleaning_fence_styles :
    (prescription_medicine_names "```json [\"A\",\"B\"]```").Perm ["A", "B"] ∧
    (prescription_medicine_names "```\n[\"A\",\"B\"]\n```").Perm ["A", "B"] ∧
    (prescription_medicine_names "[\"A\",\"B\"]").Perm ["A", "B"] ∧
    (∀ resp m, m ∈ prescription_medicine_names resp →
      m.data.contains '[' = false ∧ m.data.contains ']' = false) := by
  refine ⟨?_, ?_, ?_, ?_⟩
  · rw [show prescription_medicine_names "```json [\"A\",\"B\"]```" = ["A", "B"] from rfl]
  · rw [show prescription_medicine_names "```\n[\"A\",\"B\"]\n```" = ["A", "B"] from rfl]
  · rw [show prescription_medicine_names "[\"A\",\"B\"]" = ["A", "B"] from rfl]
  · intro resp m hm
    have h := clean_names_no_brackets (extract_medicine_names resp) m hm
    constructor
    · simpa using h.1
    · simpa using h.2

/-- Witness for C8's universal part: a bracket inside a JSON string element
is deleted by cleaning. -/
theorem C8_cleaning_fence_styles_witness :
    ("xy" ∈ prescription_medicine_names "[\"x[y\"]") ∧
    "xy".data.contains '[' = false ∧ "xy".data.contains ']' = false := by
  refine ⟨by rw [show prescription_medicine_names "[\"x[y\"]" = ["xy"] from rfl]; simp, ?_⟩
  exact C8_cleaning_fence_styles.2.2.2 "[\"x[y\"]" "xy"
    (by rw [show prescription_medicine_names "[\"x[y\"]" = ["xy"] from rfl]; simp)

/-- C5 (counterexample): a test named "Glucose, Fasting" contains none of
the recognized substrings the claim lists (hba1c, glycosylated hemoglobin,
fasting glucose, total cholesterol) — yet `enhance_test_status` rewrites its
status, because the source tests `'glucose' in name and 'fasting' in name`,
not the contiguous substring "fasting glucose". -/
theorem C5_unrecognized_name_modified :
    containsSub (pyLower "Glucose, Fasting") "hba1c" = false ∧
    containsSub (pyLower "Glucose, Fasting") "glycosylated hemoglobin" = false ∧
    containsSub (pyLower "Glucose, Fasting") "fasting glucose" = false ∧
    containsSub (pyLower "Glucose, Fasting") "total cholesterol" = false ∧
    enhanceTest (pdict [("test_name", pstr "Glucose, Fasting"),
        ("value", pstr "130"), ("status", pstr "normal")]) =
      Except.ok (pdict [("test_name", pstr "Glucose, Fasting"),
        ("value", pstr "130"), ("status", pstr "high"),
        ("clinical_significance", pstr "Diabetic range")]) := by
  have hnum : numericOf (pstr "130") = some (130 : ℚ) := by
    rw [show numericOf (pstr "130") = some ((130 : ℚ) + 0 / 10 ^ 0) from rfl]
    norm_num
  refine ⟨rfl, rfl, rfl, rfl, ?_⟩
  simp only [enhanceTest, List.lookup, List.getD,
    show ((("test_name" : String) == "test_name") : Bool) = true from rfl,
    show ((("value" : String) == "test_name") : Bool) = false from rfl,
    show ((("value" : String) == "value") : Bool) = true from rfl,
    Option.getD_some, hnum]
  rw [if_neg (by decide), if_pos (by decide), if_pos (by norm_num : (130 : ℚ) ≥ 126)]
  rfl

/-- C5 (amended): `enhance_test_status` never modifies a test whose
lower-cased name fails the recognized-name predicate (hba1c / glycosylated
hemoglobin substrings, or glucose together with fasting, or cholesterol
together with total); a recognized test whose value yields no numeric token
is left untouched; and on every test only `status` and
`clinical_significance` can change. -/
theorem C5_enhance_frame (kvs : List (String × Py)) (s : String)
    (hname : (List.lookup "test_name" kvs).getD (pstr "") = pstr s) :
    (recognizedName (pyLower s) = false → enhanceTest (pdict kvs) = Except.ok (pdict kvs)) ∧
    (numericOf ((List.lookup "value" kvs).getD (pstr "")) = none →
      enhanceTest (pdict kvs) = Except.ok (pdict kvs)) ∧
    (∀ kvs2, enhanceTest (pdict kvs) = Except.ok (pdict kvs2) →
      ∀ k, k ≠ "status" → k ≠ "clinical_significance" →
        List.lookup k kvs2 = List.lookup k kvs) := by
  refine ⟨?_, ?_, ?_⟩
  · intro hrec
    simp only [recognizedName, Bool.or_eq_false_iff, Bool.and_eq_false_iff] at hrec
    simp only [enhanceTest, hname]
    cases hv : numericOf ((List.lookup "value" kvs).getD (pstr "")) with
    | none => rfl
    | some v =>
      rcases hrec with ⟨⟨⟨h1, h2⟩, h3⟩, h4⟩
      simp only [h1, h2, Bool.or_self, Bool.false_or, if_false]
      rcases h3 with h3 | h3 <;> rcases h4 with h4 | h4 <;>
        simp only [h3, h4, Bool.false_and, Bool.and_false, if_false] <;> rfl
  · intro hv
    simp only [enhanceTest, hname, hv]
    rfl
  · intro kvs2 heq k hk1 hk2
    simp only [enhanceTest, hname] at heq
    cases hv : numericOf ((List.lookup "value" kvs).getD (pstr "")) with
    | none =>
      rw [hv] at heq
      simp only [pure, Except.pure, Except.ok.injEq, pdict.injEq] at heq
      rw [heq]
    | some v =>
      rw [hv] at heq
      repeat' split at heq
      all_goals
        first
        | (rename_i hx
           exact Option.noConfusion hx)
        | (simp only [pure, Except.pure, Except.ok.injEq, pdict.injEq] at heq
           first
           | rw [← heq, lookup_dictSet_ne _ _ _ _ hk2, lookup_dictSet_ne _ _ _ _ hk1]
           | rw [← heq, lookup_dictSet_ne _ _ _ _ hk1]
           | rw [← heq])

/-- Witness for C5 (amended): an unrecognized test is returned unchanged. -/
theorem C5_enhance_frame_witness :
    enhanceTest (pdict [("test_name", pstr "Platelets"), ("value", pstr "250"),
        ("status", pstr "normal")]) =
      Except.ok (pdict [("test_name", pstr "Platelets"), ("value", pstr "250"),
        ("status", pstr "normal")]) :=
  (C5_enhance_frame [("test_name", pstr "Platelets"), ("value", pstr "250"),
    ("status", pstr "normal")] "Platelets" rfl).1 (by decide)

/-- C6: for a test whose (lower-cased) name contains "hba1c" or
"glycosylated hemoglobin" and whose value yields a first numeric token `v`,
`enhance_test_status` sets status "high" with clinical significance
"Suggests diabetes" when `v ≥ 6.5`, status "borderline" with "Prediabetic
range" when `5.7 ≤ v < 6.5`, and status "normal" (clinical significance
untouched) otherwise; "Suggests diabetes" mentions diabetes. -/
theorem C6_hba1c_thresholds (kvs : List (String × Py)) (s : String) (v : ℚ)
    (hname : (List.lookup "test_name" kvs).getD (pstr "") = pstr s)
    (hrec : containsSub (pyLower s) "hba1c" = true ∨
      containsSub (pyLower s) "glycosylated hemoglobin" = true)
    (hval : numericOf ((List.lookup "value" kvs).getD (pstr "")) = some v) :
    ((6.5 : ℚ) ≤ v → ∃ kvs2, enhanceTest (pdict kvs) = Except.ok (pdict kvs2) ∧
      List.lookup "status" kvs2 = some (pstr "high") ∧
      List.lookup "clinical_significance" kvs2 = some (pstr "Suggests diabetes") ∧
      containsSub "Suggests diabetes" "diabetes" = true) ∧
    ((5.7 : ℚ) ≤ v → v < (6.5 : ℚ) →
      ∃ kvs2, enhanceTest (pdict kvs) = Except.ok (pdict kvs2) ∧
        List.lookup "status" kvs2 = some (pstr "borderline") ∧
        List.lookup "clinical_significance" kvs2 = some (pstr "Prediabetic range")) ∧
    (v < (5.7 : ℚ) → ∃ kvs2, enhanceTest (pdict kvs) = Except.ok (pdict kvs2) ∧
      List.lookup "status" kvs2 = some (pstr "normal") ∧
      List.lookup "clinical_significance" kvs2 =
        List.lookup "clinical_significance" kvs) := by
  have hcond : (containsSub (pyLower s) "hba1c" ||
      containsSub (pyLower s) "glycosylated hemoglobin") = true := by
    rcases hrec with h | h <;> simp [h]
  refine ⟨?_, ?_, ?_⟩
  · intro h65
    refine ⟨dictSet (dictSet kvs "status" (pstr "high"))
      "clinical_significance" (pstr "Suggests diabetes"), ?_, ?_, ?_, by decide⟩
    · simp only [enhanceTest, hname, hval, hcond, if_true]
      rw [if_pos (by exact h65)]
      rfl
    · rw [lookup_dictSet_ne _ _ _ _ (by decide), lookup_dictSet_self]
    · rw [lookup_dictSet_self]
  · intro h57 h65
    refine ⟨dictSet (dictSet kvs "status" (pstr "borderline"))
      "clinical_significance" (pstr "Prediabetic range"), ?_, ?_, ?_⟩
    · simp only [enhanceTest, hname, hval, hcond, if_true]
      rw [if_neg (by exact not_le.mpr h65), if_pos (by exact h57)]
      rfl
    · rw [lookup_dictSet_ne _ _ _ _ (by decide), lookup_dictSet_self]
    · rw [lookup_dictSet_self]
  · intro h57
    refine ⟨dictSet kvs "status" (pstr "normal"), ?_, ?_, ?_⟩
    · simp only [enhanceTest, hname, hval, hcond, if_true]
      rw [if_neg (by exact not_le.mpr (h57.trans_le (by norm_num))),
        if_neg (by exact not_le.mpr h57)]
      rfl
    · rw [lookup_dictSet_self]
    · rw [lookup_dictSet_ne _ _ _ _ (by decide)]

/-- Witness for C6: an HbA1c test with value "6.8" is scored high with a
clinical significance mentioning diabetes. -/
theorem C6_hba1c_thresholds_witness :
    ∃ kvs2, enhanceTest (pdict [("test_name", pstr "HbA1c"), ("value", pstr "6.8"),
        ("status", pstr "normal")]) = Except.ok (pdict kvs2) ∧
      List.lookup "status" kvs2 = some (pstr "high") ∧
      List.lookup "clinical_significance" kvs2 = some (pstr "Suggests diabetes") ∧
      containsSub "Suggests diabetes" "diabetes" = true := by
  have hval : numericOf ((List.lookup "value"
      [("test_name", pstr "HbA1c"), ("value", pstr "6.8"),
       ("status", pstr "normal")]).getD (pstr "")) = some ((34 : ℚ) / 5) := by
    rw [show (List.lookup "value" [("test_name", pstr "HbA1c"), ("value", pstr "6.8"),
      ("status", pstr "normal")]).getD (pstr "") = pstr "6.8" from rfl]
    rw [show numericOf (pstr "6.8") =
      some ((digitsToNat ['6'] : ℚ) + (digitsToNat ['8'] : ℚ) / 10 ^ 1) from rfl]
    norm_num [show digitsToNat ['6'] = 6 from rfl, show digitsToNat ['8'] = 8 from rfl]
  exact (C6_hba1c_thresholds
    [("test_name", pstr "HbA1c"), ("value", pstr "6.8"), ("status", pstr "normal")]
    "HbA1c" ((34 : ℚ) / 5) rfl (Or.inl rfl) hval).1 (by norm_num)

theorem validate_ok_shape (d : Py) (h : validate_parsed_data d = Except.ok true) :
    ∃ kvs pk tc ab, d = pdict kvs ∧
      List.lookup "patient_info" kvs = some (pdict pk) ∧
      List.lookup "test_categories" kvs = some (plist tc) ∧
      List.lookup "abnormal_findings" kvs = some (plist ab) := by
  cases d with
  | pnone =>
    simp [show validate_parsed_data pnone = Except.error "TypeError" from rfl] at h
  | pbool b =>
    have : validate_parsed_data (pbool b) = Except.error "TypeError" := rfl
    simp [this] at h
  | pint n =>
    simp [show validate_parsed_data (pint n) = Except.error "TypeError" from rfl] at h
  | pfloat q =>
    simp [show validate_parsed_data (pfloat q) = Except.error "TypeError" from rfl] at h
  | pstr s =>
    exfalso
    simp only [validate_parsed_data, pyIn, pySubscript, bind, Except.bind, pure,
      Except.pure] at h
    repeat' split at h
    all_goals simp_all
  | plist xs =>
    exfalso
    simp only [validate_parsed_data, pyIn, pySubscript, bind, Except.bind, pure,
      Except.pure] at h
    repeat' split at h
    all_goals simp_all
  | pdict kvs =>
    refine ⟨kvs, ?_⟩
    simp only [validate_parsed_data, pyIn, pySubscript, bind, Except.bind, pure,
      Except.pure] at h
    cases hpk : List.lookup "patient_info" kvs with
    | none => rw [hpk] at h; simp at h
    | some pi =>
      rw [hpk] at h
      cases htc : List.lookup "test_categories" kvs with
      | none => rw [htc] at h; simp at h
      | some tc0 =>
        rw [htc] at h
        cases hab : List.lookup "abnormal_findings" kvs with
        | none => rw [hab] at h; simp at h
        | some ab0 =>
          rw [hab] at h
          cases pi <;> cases tc0 <;> cases ab0 <;>
            first
            | exact ⟨_, _, _, rfl, rfl, rfl, rfl⟩
            | simp [isPyDict, isPyList] at h

theorem enhance_preserves_keys (kvs pk : List (String × Py)) (tc ab : List Py)
    (r : Py)
    (hpk : List.lookup "patient_info" kvs = some (pdict pk))
    (htc : List.lookup "test_categories" kvs = some (plist tc))
    (hab : List.lookup "abnormal_findings" kvs = some (plist ab))
    (he : enhance_test_status (pdict kvs) = Except.ok r) :
    ∃ kvs2 tc2, r = pdict kvs2 ∧
      List.lookup "patient_info" kvs2 = some (pdict pk) ∧
      List.lookup "test_categories" kvs2 = some (plist tc2) ∧
      List.lookup "abnormal_findings" kvs2 = some (plist ab) := by
  simp only [enhance_test_status, htc, bind, Except.bind] at he
  cases hm : tc.mapM enhanceCategory with
  | error e => rw [hm] at he; simp at he
  | ok cats2 =>
    rw [hm] at he
    simp only [pure, Except.pure, Except.ok.injEq] at he
    refine ⟨dictSet kvs "test_categories" (plist cats2), cats2, he.symm, ?_, ?_, ?_⟩
    · rw [lookup_dictSet_ne _ _ _ _ (by decide)]
      exact hpk
    · rw [lookup_dictSet_self]
    · rw [lookup_dictSet_ne _ _ _ _ (by decide)]
      exact hab

theorem create_fallback_structure_eq (text : String) :
    create_fallback_structure text = pdict
      [("patient_info", pdict
          [("name", pstr (((pySplit text "\n").take 20).foldl fallbackPatientStep
             ("Not specified", "Not specified", "Not specified")).1),
           ("age", pstr (((pySplit text "\n").take 20).foldl fallbackPatientStep
             ("Not specified", "Not specified", "Not specified")).2.1),
           ("gender", pstr (((pySplit text "\n").take 20).foldl fallbackPatientStep
             ("Not specified", "Not specified", "Not specified")).2.2),
           ("report_date", pstr "Not specified"),
           ("lab_number", pstr "Not specified")]),
       ("test_categories",
          if ((pySplit text "\n").filterMap fallbackTestOfLine).isEmpty then plist []
          else plist [pdict [("category", pstr "General Tests"),
            ("tests", plist (((pySplit text "\n").filterMap fallbackTestOfLine).take 15))]]),
       ("abnormal_findings", plist [pstr fallbackAbnormalMsg]),
       ("critical_values", plist [])] := rfl

theorem fallback_four_keys (text : String) :
    ∃ kvs pk tc ab cv, create_fallback_structure text = pdict kvs ∧
      List.lookup "patient_info" kvs = some (pdict pk) ∧
      List.lookup "test_categories" kvs = some (plist tc) ∧
      List.lookup "abnormal_findings" kvs = some (plist ab) ∧
      List.lookup "critical_values" kvs = some (plist cv) := by
  rw [create_fallback_structure_eq]
  by_cases hp : ((pySplit text "\n").filterMap fallbackTestOfLine).isEmpty
  · rw [if_pos hp]
    exact ⟨_, _, [], _, [], rfl, rfl, rfl, rfl, rfl⟩
  · rw [if_neg hp]
    exact ⟨_, _, _, _, [], rfl, rfl, rfl, rfl, rfl⟩

theorem parse_from_cases (oracle : Nat → AttemptOutcome) (text : String) :
    ∀ rem attempt,
      parse_medical_data_from oracle text rem attempt = create_fallback_structure text ∨
      ∃ d r, validate_parsed_data d = Except.ok true ∧
        enhance_test_status d = Except.ok r ∧
        parse_medical_data_from oracle text rem attempt = r := by
  intro rem
  induction rem with
  | zero => intro attempt; exact Or.inl rfl
  | succ n ih =>
    intro attempt
    cases ho : oracle attempt with
    | err =>
      simp only [parse_medical_data_from, ho]
      by_cases hl : attempt = parse_max_retries - 1
      · rw [if_pos hl]; exact Or.inl rfl
      · rw [if_neg hl]; exact ih (attempt + 1)
    | ok d =>
      simp only [parse_medical_data_from, ho]
      cases hv : validate_parsed_data d with
      | error e =>
        simp only [hv]
        by_cases hl : attempt = parse_max_retries - 1
        · rw [if_pos hl]; exact Or.inl rfl
        · rw [if_neg hl]; exact ih (attempt + 1)
      | ok b =>
        cases b with
        | false => simp only [hv]; exact ih (attempt + 1)
        | true =>
          simp only [hv]
          cases he : enhance_test_status d with
          | error e =>
            simp only [he]
            by_cases hl : attempt = parse_max_retries - 1
            · rw [if_pos hl]; exact Or.inl rfl
            · rw [if_neg hl]; exact ih (attempt + 1)
          | ok d2 =>
            simp only [he]
            exact Or.inr ⟨d, d2, hv, he, rfl⟩

/-- C1 (counterexample): a validated AI output need not carry the
`critical_values` key — `validate_parsed_data` checks only `patient_info`,
`test_categories` and `abnormal_findings` — so `parse_medical_data` can
return a report without it on the validated path, refuting the claim that
all four keys are present on every path. -/
theorem C1_validated_missing_critical_values :
    validate_parsed_data (pdict [("patient_info", pdict []),
        ("test_categories", plist []), ("abnormal_findings", plist [])]) =
      Except.ok true ∧
    parse_medical_data (fun _ => AttemptOutcome.ok (pdict [("patient_info", pdict []),
        ("test_categories", plist []), ("abnormal_findings", plist [])])) "" =
      pdict [("patient_info", pdict []), ("test_categories", plist []),
        ("abnormal_findings", plist [])] ∧
    pyDig (parse_medical_data (fun _ => AttemptOutcome.ok (pdict
        [("patient_info", pdict []), ("test_categories", plist []),
         ("abnormal_findings", plist [])])) "") ["critical_values"] = none :=
  ⟨rfl, rfl, rfl⟩

/-- C1 (amended): on every path `parse_medical_data` returns a dict in which
`patient_info` is a dict and `test_categories` and `abnormal_findings` are
lists; the deterministic fallback additionally always carries
`critical_values` as a list, but the validated path guarantees only those
three keys (the AI output may or may not include `critical_values`). -/
theorem C1_parse_totality :
    (∀ (oracle : Nat → AttemptOutcome) (text : String),
      ∃ kvs pk tc ab, parse_medical_data oracle text = pdict kvs ∧
        List.lookup "patient_info" kvs = some (pdict pk) ∧
        List.lookup "test_categories" kvs = some (plist tc) ∧
        List.lookup "abnormal_findings" kvs = some (plist ab)) ∧
    (∀ text, ∃ kvs pk tc ab cv, create_fallback_structure text = pdict kvs ∧
      List.lookup "patient_info" kvs = some (pdict pk) ∧
      List.lookup "test_categories" kvs = some (plist tc) ∧
      List.lookup "abnormal_findings" kvs = some (plist ab) ∧
      List.lookup "critical_values" kvs = some (plist cv)) := by
  refine ⟨?_, fallback_four_keys⟩
  intro oracle text
  rcases parse_from_cases oracle text parse_max_retries 0 with hf | ⟨d, r, hv, he, hr⟩
  · unfold parse_medical_data
    rw [hf]
    obtain ⟨kvs, pk, tc, ab, cv, hkvs, hpk, htc, hab, _⟩ := fallback_four_keys text
    exact ⟨kvs, pk, tc, ab, hkvs, hpk, htc, hab⟩
  · obtain ⟨kvs, pk, tc, ab, hd, hpk, htc, hab⟩ := validate_ok_shape d hv
    subst hd
    obtain ⟨kvs2, tc2, hr2, hpk2, htc2, hab2⟩ :=
      enhance_preserves_keys kvs pk tc ab r hpk htc hab he
    subst hr2
    exact ⟨kvs2, pk, tc2, ab, hr, hpk2, htc2, hab2⟩
